import Mathlib

/-!
Shallow embedding of the Geoplan collaborative travel platform backend
(Flask + PostGIS application, files src/backend/app.py, src/backend/schemas.py,
src/backend/token_storage.py, src/backend/cache.py).

Modelling conventions:
* The token storage models token_storage.py in its in-memory fallback branch
  (use_redis = False); the Redis branch delegates expiry to an external
  service and is outside the embedding.
* Wall-clock times (time.time()) and float-valued request parameters are
  modelled as rationals; request parameters are the values marshmallow
  obtained after float/int conversion.
* Python truthiness of optional strings and integers (None, the empty string
  and 0 are falsy) is modelled explicitly where the handlers test it.
* Database tables are modelled as lists of rows; SQL upserts and deletes are
  modelled by the corresponding list transformations.
-/

namespace Geoplan

/-- Python truthiness of an optional string: None and the empty string are falsy. -/
def optStrTruthy : Option String → Bool
  | none => false
  | some s => s != ""

/-- Python truthiness of an optional integer id: None and 0 are falsy. -/
def optNatTruthy : Option Nat → Bool
  | none => false
  | some n => n != 0

/-- Python str.strip(): leading and trailing whitespace removed. Implemented
    structurally over the character list so that concrete instances evaluate
    inside the kernel. -/
def pyStrip (s : String) : String :=
  ⟨(((s.data.dropWhile Char.isWhitespace).reverse.dropWhile Char.isWhitespace).reverse)⟩

/-- Python str.startswith(pre). -/
def pyStartsWith (s pre : String) : Bool :=
  pre.data.isPrefixOf s.data

/-- Python slicing s[n:] by characters. -/
def pyDropChars (s : String) (n : Nat) : String :=
  ⟨s.data.drop n⟩

/-- ASCII lowercasing of one character (Python str.lower() on the ASCII
    values appearing in this data). -/
def asciiLowerChar (c : Char) : Char :=
  if 65 ≤ c.toNat ∧ c.toNat ≤ 90 then Char.ofNat (c.toNat + 32) else c

/-- Python str.lower(). -/
def pyLower (s : String) : String :=
  ⟨s.data.map asciiLowerChar⟩

/-- Python str.split(sep) for a one-character separator: empty segments are
    kept, the empty string yields one empty segment. -/
def pySplitChar (sep : Char) (s : String) : List String :=
  (s.data.foldr
    (fun c acc =>
      match acc with
      | cur :: rest => if c = sep then [] :: cur :: rest else (c :: cur) :: rest
      | [] => [[c]])
    [[]]).map (fun l => ⟨l⟩)

/-- Record stored for a token by TokenStorage.store_token (fallback branch):
    user_role, user_id, created_at plus the expires_at stamp added in the
    fallback dictionary. -/
structure TokenData where
  user_role : String
  user_id : Option Int
  created_at : ℚ
  expires_at : ℚ
deriving Repr, DecidableEq

/-- The in-memory fallback storage dictionary of token_storage.py. -/
abbrev TokenStore := List (String × TokenData)

/-- Dictionary lookup by key. -/
def storeLookup (s : TokenStore) (t : String) : Option TokenData :=
  (s.find? (fun p => p.1 == t)).map Prod.snd

/-- Dictionary deletion (del dict[key] or dict.pop(key, None)). -/
def storeErase (s : TokenStore) (t : String) : TokenStore :=
  s.filter (fun p => p.1 != t)

/-- Dictionary assignment, overwriting any previous binding of the key. -/
def storeInsert (s : TokenStore) (t : String) (d : TokenData) : TokenStore :=
  (t, d) :: storeErase s t

/-- TOKEN_TTL = 1800 seconds (30 minutes), token_storage.py. -/
def TOKEN_TTL : ℚ := 1800

/-- TokenStorage.store_token (fallback branch): writes user_role, user_id and
    created_at = now, with expires_at = now + TOKEN_TTL. -/
def store_token (s : TokenStore) (token user_role : String)
    (user_id : Option Int) (now : ℚ) : TokenStore :=
  storeInsert s token
    { user_role := user_role, user_id := user_id,
      created_at := now, expires_at := now + TOKEN_TTL }

/-- TokenStorage.get_token_data (fallback branch): a falsy token yields None;
    an unknown token yields None; a token whose expires_at is strictly in the
    past is deleted (lazy eviction) and yields None; otherwise the stored
    record is returned with the store unchanged. -/
def get_token_data (s : TokenStore) (token : String) (now : ℚ) :
    Option TokenData × TokenStore :=
  if token = "" then (none, s)
  else
    match storeLookup s token with
    | none => (none, s)
    | some d => if d.expires_at < now then (none, storeErase s token) else (some d, s)

/-- TokenStorage.delete_token (fallback branch). -/
def delete_token (s : TokenStore) (token : String) : TokenStore :=
  storeErase s token

/-- Flask session state as read by the handlers: the session user_role entry
    (present or absent) and the permissions entry. -/
structure Session where
  user_role : Option String
  permissions : List String
deriving Repr, DecidableEq

/-- A cleared Flask session (session.clear()). -/
def emptySession : Session := { user_role := none, permissions := [] }

/-- Outcome of the POST /auth/logout handler. -/
structure LogoutResult where
  status : Nat
  success : Bool
deriving Repr, DecidableEq

/-- The POST /auth/logout handler (app.py): clears the Flask session and
    returns 200 with a success body. It performs no call into the token
    store, so the store is returned unchanged. -/
def logout (_sess : Session) (store : TokenStore) :
    LogoutResult × Session × TokenStore :=
  ({ status := 200, success := true }, emptySession, store)

/-- validate_token (app.py): a falsy token is invalid; otherwise the token
    store is consulted and the stored user_role is returned when a record is
    found. The store is threaded through to model lazy eviction performed
    inside get_token_data. -/
def validate_token (store : TokenStore) (now : ℚ) (token : String) :
    Option String × TokenStore :=
  if token = "" then (none, store)
  else
    match get_token_data store token now with
    | (none, s1) => (none, s1)
    | (some d, s1) => (some d.user_role, s1)

/-- Truthiness of the role candidate, as tested by the if user_role checks in
    get_user_role_from_request. -/
def roleTruthy : Option String → Bool
  | none => false
  | some r => r != ""

/-- The authentication-relevant request headers. -/
structure AuthHeaders where
  authorization : Option String
  x_auth_token : Option String
deriving Repr, DecidableEq

/-- A request as seen by the authenticator: headers plus Flask session. -/
structure RequestCtx where
  headers : AuthHeaders
  session : Session
deriving Repr, DecidableEq

/-- Method 1 of get_user_role_from_request: the Authorization header when it
    carries a Bearer prefix; the candidate token is the remainder, trimmed,
    and is validated only when non-empty. -/
def authMethod1 (req : RequestCtx) (store : TokenStore) (now : ℚ) :
    Option String × TokenStore :=
  let auth_header := (req.headers.authorization).getD ""
  if pyStartsWith auth_header "Bearer " then
    let token := pyStrip (pyDropChars auth_header 7)
    if token != "" then validate_token store now token else (none, store)
  else (none, store)

/-- Method 2 of get_user_role_from_request: the X-Auth-Token header when
    present and truthy, trimmed before validation. -/
def authMethod2 (req : RequestCtx) (store : TokenStore) (now : ℚ) :
    Option String × TokenStore :=
  match req.headers.x_auth_token with
  | some t => if t != "" then validate_token store now (pyStrip t) else (none, store)
  | none => (none, store)

/-- get_user_role_from_request (app.py): Authorization Bearer header, then
    X-Auth-Token header, then the session cookie role. A method whose
    candidate is missing or whose token does not validate to a truthy role
    falls through to the next method; if all three fail the result is None. -/
def get_user_role_from_request (req : RequestCtx) (store : TokenStore) (now : ℚ) :
    Option String × TokenStore :=
  let m1 := authMethod1 req store now
  if roleTruthy m1.1 then m1
  else
    let m2 := authMethod2 req m1.2 now
    if roleTruthy m2.1 then m2
    else
      match req.session.user_role with
      | some v => (some v, m2.2)
      | none => (none, m2.2)

/-! Marshmallow input schemas (schemas.py) and the spatial-search handlers
    (app.py). A schema is modelled as a function from the raw (already
    float-converted) request arguments to a list of field errors; the handler
    returns 400 with those errors when the list is non-empty and otherwise
    builds its parameterized query. -/

/-- A field-level validation error as collected by marshmallow. -/
structure FieldError where
  field : String
  msg : String
deriving Repr, DecidableEq

/-- The four known place categories (validate.OneOf in schemas.py). -/
def validPlaceTypes : List String := ["brewery", "restaurant", "tourist_place", "hotel"]

/-- Raw arguments of GET /within_radius. -/
structure RadiusArgs where
  lat : Option ℚ
  lon : Option ℚ
  km : Option ℚ
  state : Option String
  name : Option String
  place_type : Option String
deriving Repr, DecidableEq

/-- Latitude field of RadiusSearchSchema and NearestSearchSchema: required,
    range [-90, 90], custom error messages. -/
def latFieldErrors (lat : Option ℚ) : List FieldError :=
  match lat with
  | none => [{ field := "lat", msg := "Latitude is required" }]
  | some v =>
    if -90 ≤ v ∧ v ≤ 90 then []
    else [{ field := "lat", msg := "Latitude must be between -90 and 90" }]

/-- Longitude field: required, range [-180, 180], custom error messages. -/
def lonFieldErrors (lon : Option ℚ) : List FieldError :=
  match lon with
  | none => [{ field := "lon", msg := "Longitude is required" }]
  | some v =>
    if -180 ≤ v ∧ v ≤ 180 then []
    else [{ field := "lon", msg := "Longitude must be between -180 and 180" }]

/-- Radius field of RadiusSearchSchema: optional with default 10, range
    [0.1, 1000]. -/
def kmFieldErrors (km : Option ℚ) : List FieldError :=
  match km with
  | none => []
  | some v =>
    if mkRat 1 10 ≤ v ∧ v ≤ 1000 then []
    else [{ field := "km", msg := "Radius must be between 0.1 and 1000 km" }]

/-- An optional string field with a maximum length and a given failure
    message (validate.Length(max=...)). -/
def strLenErrors (field : String) (maxLen : Nat) (msg : String) :
    Option String → List FieldError
  | none => []
  | some s => if s.length ≤ maxLen then [] else [{ field := field, msg := msg }]

/-- Place-type field with validate.OneOf over the four categories and the
    given failure message; a value that is not literally one of the four
    names (including any comma-separated list of two or more of them) fails. -/
def placeTypeErrors (msg : String) : Option String → List FieldError
  | none => []
  | some t =>
    if t ∈ validPlaceTypes then [] else [{ field := "place_type", msg := msg }]

/-- RadiusSearchSchema.load: field errors collected over all fields. -/
def radiusSchemaErrors (a : RadiusArgs) : List FieldError :=
  latFieldErrors a.lat ++ lonFieldErrors a.lon ++ kmFieldErrors a.km ++
  strLenErrors "state" 100 "State name too long (max 100 characters)" a.state ++
  strLenErrors "name" 200 "Name too long (max 200 characters)" a.name ++
  placeTypeErrors "place_type must be one of: brewery, restaurant, tourist_place, hotel" a.place_type

/-- Parameterized radius query assembled by the within_radius handler. -/
structure RadiusQuery where
  lat : ℚ
  lon : ℚ
  radius_km : ℚ
  place_types : Option (List String)
  state_filter : Option String
  name_filter : Option String
  order_by_distance : Bool
  limit : Nat
deriving Repr, DecidableEq

/-- Outcome of GET /within_radius before execution: either a 400 validation
    response (no database query is issued) or the query to execute. -/
inductive RadiusResult
  | invalid (errors : List FieldError)
  | query (q : RadiusQuery)
deriving Repr, DecidableEq

/-- Whether the outcome reaches the database. -/
def RadiusResult.queriesDb : RadiusResult → Bool
  | .invalid _ => false
  | .query _ => true

/-- The effective radius of the executed query, if one is executed. -/
def RadiusResult.effRadius : RadiusResult → Option ℚ
  | .invalid _ => none
  | .query q => some q.radius_km

/-- Splitting of the place_type parameter on commas with trimming and
    removal of empty items, as done in the handlers. -/
def splitPlaceTypes (s : String) : List String :=
  ((pySplitChar (Char.ofNat 44) s).map pyStrip).filter (fun t => t != "")

/-- Comma-splitting step of the handlers: place_types is set only for a
    truthy place_type parameter and used only when the list is non-empty. -/
def handlerPlaceTypes (o : Option String) : Option (List String) :=
  match o with
  | some s =>
    if s != "" then
      (let l := splitPlaceTypes s
       if l.isEmpty then none else some l)
    else none
  | none => none

/-- A truthy-only optional string, as the handlers test filters with
    if state_filter and if name_filter. -/
def optTruthyFilter (o : Option String) : Option String :=
  match o with
  | some s => if s != "" then some s else none
  | none => none

/-- The GET /within_radius handler (app.py): schema validation, then the
    state-widening policy (a truthy state filter with km below 500 widens the
    effective radius to 500 km), then the distance-ordered query capped at
    2000 rows. -/
def within_radius (a : RadiusArgs) : RadiusResult :=
  match radiusSchemaErrors a with
  | [] =>
    let km0 := a.km.getD 10
    let km := if optStrTruthy a.state && decide (km0 < 500) then 500 else km0
    .query
      { lat := a.lat.getD 0, lon := a.lon.getD 0, radius_km := km,
        place_types := handlerPlaceTypes a.place_type,
        state_filter := optTruthyFilter a.state,
        name_filter := optTruthyFilter a.name,
        order_by_distance := true, limit := 2000 }
  | es => .invalid es

/-- Raw arguments of GET /nearest. -/
structure NearestArgs where
  lat : Option ℚ
  lon : Option ℚ
  k : Option Int
  state : Option String
  name : Option String
  place_type : Option String
deriving Repr, DecidableEq

/-- NearestSearchSchema.load: lat/lon as in the radius schema; k optional
    with default 10 and range [1, 100]; state/name lengths and place_type
    OneOf with marshmallow default messages. -/
def nearestSchemaErrors (a : NearestArgs) : List FieldError :=
  latFieldErrors a.lat ++ lonFieldErrors a.lon ++
  (match a.k with
   | none => []
   | some v =>
     if 1 ≤ v ∧ v ≤ 100 then []
     else [{ field := "k", msg := "k must be between 1 and 100" }]) ++
  strLenErrors "state" 100 "Longer than maximum length 100." a.state ++
  strLenErrors "name" 200 "Longer than maximum length 200." a.name ++
  placeTypeErrors "Must be one of: brewery, restaurant, tourist_place, hotel." a.place_type

/-- Parameterized KNN query assembled by the nearest handler. -/
structure NearestQuery where
  lat : ℚ
  lon : ℚ
  k : Int
  place_types : Option (List String)
  state_filter : Option String
  name_filter : Option String
  knn_order : Bool
deriving Repr, DecidableEq

/-- Outcome of GET /nearest before execution. -/
inductive NearestResult
  | invalid (errors : List FieldError)
  | query (q : NearestQuery)
deriving Repr, DecidableEq

/-- Whether the outcome reaches the database. -/
def NearestResult.queriesDb : NearestResult → Bool
  | .invalid _ => false
  | .query _ => true

/-- The GET /nearest handler (app.py): schema validation (the handler also
    re-checks the k range, which is unreachable after the schema), then the
    KNN-ordered query with LIMIT k. -/
def nearest (a : NearestArgs) : NearestResult :=
  match nearestSchemaErrors a with
  | [] =>
    let k := a.k.getD 10
    if k ≤ 0 ∨ 100 < k then
      .invalid [{ field := "k", msg := "k must be between 1 and 100" }]
    else
      .query
        { lat := a.lat.getD 0, lon := a.lon.getD 0, k := k,
          place_types := handlerPlaceTypes a.place_type,
          state_filter := optTruthyFilter a.state,
          name_filter := optTruthyFilter a.name,
          knn_order := true }
  | es => .invalid es

/-- Raw arguments of GET /within_bbox. -/
structure BboxArgs where
  north : Option ℚ
  south : Option ℚ
  east : Option ℚ
  west : Option ℚ
  state : Option String
  name : Option String
  place_type : Option String
deriving Repr, DecidableEq

/-- A required latitude-like bbox field with its custom messages. -/
def bboxLatErrors (field requiredMsg rangeMsg : String) (v : Option ℚ) : List FieldError :=
  match v with
  | none => [{ field := field, msg := requiredMsg }]
  | some q => if -90 ≤ q ∧ q ≤ 90 then [] else [{ field := field, msg := rangeMsg }]

/-- A required longitude-like bbox field with its custom messages. -/
def bboxLonErrors (field requiredMsg rangeMsg : String) (v : Option ℚ) : List FieldError :=
  match v with
  | none => [{ field := field, msg := requiredMsg }]
  | some q => if -180 ≤ q ∧ q ≤ 180 then [] else [{ field := field, msg := rangeMsg }]

/-- Field-level errors of BoundingBoxSchema. -/
def bboxFieldErrors (a : BboxArgs) : List FieldError :=
  bboxLatErrors "north" "North latitude is required" "North must be between -90 and 90" a.north ++
  bboxLatErrors "south" "South latitude is required" "South must be between -90 and 90" a.south ++
  bboxLonErrors "east" "East longitude is required" "East must be between -180 and 180" a.east ++
  bboxLonErrors "west" "West longitude is required" "West must be between -180 and 180" a.west ++
  strLenErrors "state" 100 "Longer than maximum length 100." a.state ++
  strLenErrors "name" 200 "Longer than maximum length 200." a.name ++
  placeTypeErrors "Must be one of: brewery, restaurant, tourist_place, hotel." a.place_type

/-- BoundingBoxSchema.load: field errors first; the schema-level validate_bbox
    check runs only when field validation passed (marshmallow skips schema
    validators on field errors) and raises on its first failing comparison. -/
def bboxSchemaErrors (a : BboxArgs) : List FieldError :=
  match bboxFieldErrors a with
  | [] =>
    if a.north.getD 0 ≤ a.south.getD 0 then
      [{ field := "_schema", msg := "North latitude must be greater than south latitude" }]
    else if a.east.getD 0 ≤ a.west.getD 0 then
      [{ field := "_schema", msg := "East longitude must be greater than west longitude" }]
    else []
  | es => es

/-- Parameterized envelope query assembled by the within_bbox handler. -/
structure BboxQuery where
  north : ℚ
  south : ℚ
  east : ℚ
  west : ℚ
  place_types : Option (List String)
  state_filter : Option String
  name_filter : Option String
  limit : Nat
deriving Repr, DecidableEq

/-- Outcome of GET /within_bbox before execution. -/
inductive BboxResult
  | invalid (errors : List FieldError)
  | query (q : BboxQuery)
deriving Repr, DecidableEq

/-- Whether the outcome reaches the database. -/
def BboxResult.queriesDb : BboxResult → Bool
  | .invalid _ => false
  | .query _ => true

/-- The GET /within_bbox handler (app.py): schema validation, then the
    envelope query capped at 5000 rows with no ordering. -/
def within_bbox (a : BboxArgs) : BboxResult :=
  match bboxSchemaErrors a with
  | [] =>
    .query
      { north := a.north.getD 0, south := a.south.getD 0,
        east := a.east.getD 0, west := a.west.getD 0,
        place_types := handlerPlaceTypes a.place_type,
        state_filter := optTruthyFilter a.state,
        name_filter := optTruthyFilter a.name, limit := 5000 }
  | es => .invalid es

/-- Raw arguments of GET /analytics/density. -/
structure DensityArgs where
  lat : Option ℚ
  lon : Option ℚ
  radius : Option ℚ
deriving Repr, DecidableEq

/-- AnalyticsDensitySchema.load: lat/lon optional with default 0 and the
    coordinate ranges; radius optional with default 100 and range
    [0.1, 10000]. -/
def densitySchemaErrors (a : DensityArgs) : List FieldError :=
  (match a.lat with
   | none => []
   | some v =>
     if -90 ≤ v ∧ v ≤ 90 then []
     else [{ field := "lat", msg := "Latitude must be between -90 and 90" }]) ++
  (match a.lon with
   | none => []
   | some v =>
     if -180 ≤ v ∧ v ≤ 180 then []
     else [{ field := "lon", msg := "Longitude must be between -180 and 180" }]) ++
  (match a.radius with
   | none => []
   | some v =>
     if mkRat 1 10 ≤ v ∧ v ≤ 10000 then []
     else [{ field := "radius", msg := "Radius must be between 0.1 and 10000 km" }])

/-- Parameterized density query. -/
structure DensityQuery where
  lat : ℚ
  lon : ℚ
  radius : ℚ
deriving Repr, DecidableEq

/-- Outcome of GET /analytics/density before execution. -/
inductive DensityResult
  | invalid (errors : List FieldError)
  | query (q : DensityQuery)
deriving Repr, DecidableEq

/-- Whether the outcome reaches the database. -/
def DensityResult.queriesDb : DensityResult → Bool
  | .invalid _ => false
  | .query _ => true

/-- The GET /analytics/density handler (app.py) on the cache-miss path (the
    cached decorator of cache.py is keyed per endpoint, not per argument, and
    is bypassed when Redis is unavailable): schema validation, then a
    redundant validate_coordinates call that cannot fail, then the count
    query. -/
def analytics_density (a : DensityArgs) : DensityResult :=
  match densitySchemaErrors a with
  | [] =>
    .query { lat := a.lat.getD 0, lon := a.lon.getD 0, radius := a.radius.getD 100 }
  | es => .invalid es

/-- Body of POST /places/add as loaded by AddPlaceSchema. -/
structure AddPlaceBody where
  name : Option String
  city : Option String
  state : Option String
  country : Option String
  lat : Option ℚ
  lon : Option ℚ
  place_type : Option String
deriving Repr, DecidableEq

/-- AddPlaceSchema.load: name required with length 1..200; city/state/country
    optional with length caps; lat/lon required with the coordinate ranges;
    place_type OneOf with default brewery. -/
def addPlaceSchemaErrors (b : AddPlaceBody) : List FieldError :=
  (match b.name with
   | none => [{ field := "name", msg := "Name is required" }]
   | some s =>
     if 1 ≤ s.length ∧ s.length ≤ 200 then []
     else [{ field := "name", msg := "Name must be between 1 and 200 characters" }]) ++
  strLenErrors "city" 100 "City name too long (max 100 characters)" b.city ++
  strLenErrors "state" 100 "State name too long (max 100 characters)" b.state ++
  strLenErrors "country" 2 "Country code must be 2 characters (e.g., US)" b.country ++
  latFieldErrors b.lat ++ lonFieldErrors b.lon ++
  placeTypeErrors "place_type must be one of: brewery, restaurant, tourist_place, hotel" b.place_type

/-- The base-row insert of POST /places/add. -/
structure AddPlaceInsert where
  name : String
  city : String
  state : String
  country : String
  lat : ℚ
  lon : ℚ
  place_type : String
deriving Repr, DecidableEq

/-- Outcome of POST /places/add before execution. -/
inductive AddPlaceResult
  | notAuthenticated
  | forbidden
  | invalid (errors : List FieldError)
  | insert (q : AddPlaceInsert)
deriving Repr, DecidableEq

/-- HTTP status of an add-place outcome. -/
def AddPlaceResult.status : AddPlaceResult → Nat
  | .notAuthenticated => 401
  | .forbidden => 403
  | .invalid _ => 400
  | .insert _ => 201

/-- Whether the outcome reaches the database. -/
def AddPlaceResult.queriesDb : AddPlaceResult → Bool
  | .insert _ => true
  | _ => false

/-- Roles permitted to add places. -/
def addPlaceAllowedRoles : List String := ["admin_user", "app_user", "curator_user"]

/-- The POST /places/add handler (app.py): authentication check first (401 on
    a falsy resolved role), then the role gate (403), then schema validation
    (400), then a redundant validate_coordinates call that cannot fail, then
    the transactional insert of the base row and one type-specific row. -/
def add_place (role : Option String) (b : AddPlaceBody) : AddPlaceResult :=
  if !(optStrTruthy role) then .notAuthenticated
  else if (role.getD "") ∉ addPlaceAllowedRoles then .forbidden
  else
    match addPlaceSchemaErrors b with
    | [] =>
      .insert
        { name := (b.name).getD "", city := (b.city).getD "",
          state := (b.state).getD "", country := (b.country).getD "US",
          lat := (b.lat).getD 0, lon := (b.lon).getD 0,
          place_type := (b.place_type).getD "brewery" }
    | es => .invalid es

/-! Place CRUD: PUT /api/places/id and DELETE /api/places/id, and the
    personal-list upserts (wishlist, visited, liked). -/

/-- A row of the places table, with the columns these handlers read or write. -/
structure Place where
  id : Nat
  name : String
  city : String
  state : String
  country : String
  lat : ℚ
  lon : ℚ
  created_by : Option Nat
deriving Repr, DecidableEq

/-- The places table. -/
abbrev PlacesDb := List Place

/-- SELECT ... FROM places WHERE id = pid. -/
def findPlace (db : PlacesDb) (pid : Nat) : Option Place :=
  db.find? (fun p => p.id == pid)

/-- JSON body of PUT /api/places/id: present keys carry Some. -/
structure UpdateBody where
  name : Option String
  city : Option String
  state : Option String
  country : Option String
  lat : Option ℚ
  lon : Option ℚ
deriving Repr, DecidableEq

/-- Outcome (HTTP status class) of a mutation handler. -/
inductive HttpOutcome
  | unauthenticated
  | forbidden
  | notFound
  | badRequest
  | ok
  | created
deriving Repr, DecidableEq

/-- HTTP status code of a mutation outcome. -/
def HttpOutcome.status : HttpOutcome → Nat
  | .unauthenticated => 401
  | .forbidden => 403
  | .notFound => 404
  | .badRequest => 400
  | .ok => 200
  | .created => 201

/-- Roles allowed into the update handler. -/
def updateAllowedRoles : List String := ["admin_user", "curator_user", "app_user"]

/-- Roles allowed into the delete handler. -/
def deleteAllowedRoles : List String := ["admin_user", "curator_user"]

/-- The SET clause of the update: name only when truthy; city, state and
    country whenever the key is present; lat and lon together when both keys
    are present. -/
def applyUpdates (p : Place) (b : UpdateBody) : Place :=
  let p1 := match b.name with
    | some nm => if nm != "" then { p with name := nm } else p
    | none => p
  let p2 := match b.city with
    | some c => { p1 with city := c }
    | none => p1
  let p3 := match b.state with
    | some s => { p2 with state := s }
    | none => p2
  let p4 := match b.country with
    | some c => { p3 with country := c }
    | none => p3
  match b.lat, b.lon with
  | some la, some lo => { p4 with lat := la, lon := lo }
  | _, _ => p4

/-- Whether the body contributes at least one SET item (the not updates
    check of the handler). -/
def hasUpdates (b : UpdateBody) : Bool :=
  (match b.name with
   | some nm => nm != ""
   | none => false) ||
  (b.city).isSome || (b.state).isSome || (b.country).isSome ||
  ((b.lat).isSome && (b.lon).isSome)

/-- validate_coordinates applied to a lat/lon pair supplied in the body;
    bodies without the pair skip the check. -/
def updateCoordsValid (b : UpdateBody) : Bool :=
  match b.lat, b.lon with
  | some la, some lo => decide ((-90 ≤ la ∧ la ≤ 90) ∧ (-180 ≤ lo ∧ lo ≤ 180))
  | _, _ => true

/-- The UPDATE execution step shared by all authorized paths: 400 on an
    invalid coordinate pair or an empty SET clause, 404 when the id matches
    no row, otherwise the row is rewritten in place. -/
def updateExec (pid : Nat) (b : UpdateBody) (db : PlacesDb) : HttpOutcome × PlacesDb :=
  if !(updateCoordsValid b) then (.badRequest, db)
  else if !(hasUpdates b) then (.badRequest, db)
  else
    match findPlace db pid with
    | none => (.notFound, db)
    | some _ => (.ok, db.map (fun p => if p.id == pid then applyUpdates p b else p))

/-- The PUT /api/places/id handler (app.py): 401 on a falsy user id; 403 when
    the role is outside admin_user/curator_user/app_user; for every role other
    than admin_user an ownership check against created_by (404 when the place
    does not exist, 403 when the requester is not the creator) runs before the
    payload is even parsed; then the update executes. -/
def update_place (pid : Nat) (user_id : Option Nat) (role : Option String)
    (b : UpdateBody) (db : PlacesDb) : HttpOutcome × PlacesDb :=
  if !(optNatTruthy user_id) then (.unauthenticated, db)
  else if (role.getD "") ∉ updateAllowedRoles then (.forbidden, db)
  else if role ≠ some "admin_user" then
    match findPlace db pid with
    | none => (.notFound, db)
    | some p =>
      if p.created_by ≠ some (user_id.getD 0) then (.forbidden, db)
      else updateExec pid b db
  else updateExec pid b db

/-- The DELETE execution step: 404 when the id matches no row, otherwise the
    row is removed (type-specific rows cascade in the store). -/
def deleteExec (pid : Nat) (db : PlacesDb) : HttpOutcome × PlacesDb :=
  match findPlace db pid with
  | none => (.notFound, db)
  | some _ => (.ok, db.filter (fun p => p.id != pid))

/-- The DELETE /api/places/id handler (app.py): 401 on a falsy user id; 403
    when the role is outside admin_user/curator_user; the ownership check
    runs only for curator_user; then the delete executes. -/
def delete_place (pid : Nat) (user_id : Option Nat) (role : Option String)
    (db : PlacesDb) : HttpOutcome × PlacesDb :=
  if !(optNatTruthy user_id) then (.unauthenticated, db)
  else if (role.getD "") ∉ deleteAllowedRoles then (.forbidden, db)
  else if role = some "curator_user" then
    match findPlace db pid with
    | none => (.notFound, db)
    | some p =>
      if p.created_by ≠ some (user_id.getD 0) then (.forbidden, db)
      else deleteExec pid db
  else deleteExec pid db

/-- A row of user_wishlist. -/
structure WishRow where
  user_id : Nat
  place_id : Nat
  priority : Int
  notes : String
deriving Repr, DecidableEq

/-- A row of user_visited_places. -/
structure VisitRow where
  user_id : Nat
  place_id : Nat
  notes : String
  visited_at : ℚ
deriving Repr, DecidableEq

/-- A row of user_liked_places. -/
structure LikeRow where
  user_id : Nat
  place_id : Nat
  rating : Option Int
  notes : String
deriving Repr, DecidableEq

/-- The tables touched by the personal-list handlers. -/
structure ListsDb where
  places : PlacesDb
  wishlist : List WishRow
  visited : List VisitRow
  liked : List LikeRow
deriving Repr, DecidableEq

/-- Key match on (user_id, place_id) for a wishlist row. -/
def wishKey (u pid : Nat) (r : WishRow) : Bool :=
  r.user_id == u && r.place_id == pid

/-- Key match on (user_id, place_id) for a visited row. -/
def visitKey (u pid : Nat) (r : VisitRow) : Bool :=
  r.user_id == u && r.place_id == pid

/-- Key match on (user_id, place_id) for a liked row. -/
def likeKey (u pid : Nat) (r : LikeRow) : Bool :=
  r.user_id == u && r.place_id == pid

/-- Number of wishlist rows for a (user, place) pair. -/
def wishCount (l : List WishRow) (u pid : Nat) : Nat :=
  (l.filter (wishKey u pid)).length

/-- Number of visited rows for a (user, place) pair. -/
def visitCount (l : List VisitRow) (u pid : Nat) : Nat :=
  (l.filter (visitKey u pid)).length

/-- Number of liked rows for a (user, place) pair. -/
def likeCount (l : List LikeRow) (u pid : Nat) : Nat :=
  (l.filter (likeKey u pid)).length

/-- INSERT ... ON CONFLICT (user_id, place_id) DO UPDATE SET priority, notes:
    rows under the unique key are rewritten if any exists, otherwise a new
    row is appended. -/
def upsertWish (l : List WishRow) (u pid : Nat) (prio : Int) (notes : String) :
    List WishRow :=
  if l.any (wishKey u pid) then
    l.map (fun r => if wishKey u pid r then { r with priority := prio, notes := notes } else r)
  else l ++ [{ user_id := u, place_id := pid, priority := prio, notes := notes }]

/-- INSERT ... ON CONFLICT DO UPDATE SET notes, visited_at = CURRENT_TIMESTAMP. -/
def upsertVisit (l : List VisitRow) (u pid : Nat) (notes : String) (now : ℚ) :
    List VisitRow :=
  if l.any (visitKey u pid) then
    l.map (fun r => if visitKey u pid r then { r with notes := notes, visited_at := now } else r)
  else l ++ [{ user_id := u, place_id := pid, notes := notes, visited_at := now }]

/-- INSERT ... ON CONFLICT DO UPDATE SET rating = COALESCE(EXCLUDED.rating,
    old rating), notes = EXCLUDED.notes. -/
def upsertLike (l : List LikeRow) (u pid : Nat) (rating : Option Int) (notes : String) :
    List LikeRow :=
  if l.any (likeKey u pid) then
    l.map (fun r =>
      if likeKey u pid r then
        { r with rating := match rating with | some v => some v | none => r.rating,
                 notes := notes }
      else r)
  else l ++ [{ user_id := u, place_id := pid, rating := rating, notes := notes }]

/-- JSON body of POST /api/user/wishlist after the dict gets with defaults:
    priority defaults to 1, notes to the empty string. -/
structure WishPayload where
  place_id : Option Nat
  priority : Int
  notes : String
deriving Repr, DecidableEq

/-- Priority normalization of the handler: out-of-range values fall back to 1. -/
def normPriority (p : Int) : Int :=
  if p < 1 ∨ 3 < p then 1 else p

/-- The POST /api/user/wishlist handler (app.py): 401 on a falsy user id, 400
    on a falsy place_id, 404 when the place does not exist, otherwise the
    upsert runs and the handler returns 201 (never a duplicate-key failure). -/
def add_to_wishlist (user_id : Option Nat) (body : WishPayload) (db : ListsDb) :
    HttpOutcome × ListsDb :=
  if !(optNatTruthy user_id) then (.unauthenticated, db)
  else
    let u := user_id.getD 0
    match body.place_id with
    | none => (.badRequest, db)
    | some pid =>
      if pid == 0 then (.badRequest, db)
      else
        match findPlace db.places pid with
        | none => (.notFound, db)
        | some _ =>
          (.created,
           { db with wishlist := upsertWish db.wishlist u pid (normPriority body.priority) (pyStrip body.notes) })

/-- JSON body of POST /api/user/visited. -/
structure VisitPayload where
  place_id : Option Nat
  notes : String
deriving Repr, DecidableEq

/-- The POST /api/user/visited handler (app.py): as the wishlist handler, the
    upsert additionally refreshing visited_at. -/
def add_to_visited (user_id : Option Nat) (body : VisitPayload) (now : ℚ) (db : ListsDb) :
    HttpOutcome × ListsDb :=
  if !(optNatTruthy user_id) then (.unauthenticated, db)
  else
    let u := user_id.getD 0
    match body.place_id with
    | none => (.badRequest, db)
    | some pid =>
      if pid == 0 then (.badRequest, db)
      else
        match findPlace db.places pid with
        | none => (.notFound, db)
        | some _ =>
          (.created, { db with visited := upsertVisit db.visited u pid (pyStrip body.notes) now })

/-- JSON body of POST /api/user/liked. -/
structure LikePayload where
  place_id : Option Nat
  rating : Option Int
  notes : String
deriving Repr, DecidableEq

/-- Rating normalization of the liked handler: a truthy rating outside 1..5
    becomes None (a rating of 0 is falsy and passes through). -/
def normRating (r : Option Int) : Option Int :=
  match r with
  | none => none
  | some v => if v ≠ 0 ∧ (v < 1 ∨ 5 < v) then none else some v

/-- The POST /api/user/liked handler (app.py): as the wishlist handler, with
    the COALESCE upsert on rating. -/
def add_to_liked (user_id : Option Nat) (body : LikePayload) (db : ListsDb) :
    HttpOutcome × ListsDb :=
  if !(optNatTruthy user_id) then (.unauthenticated, db)
  else
    let u := user_id.getD 0
    match body.place_id with
    | none => (.badRequest, db)
    | some pid =>
      if pid == 0 then (.badRequest, db)
      else
        match findPlace db.places pid with
        | none => (.notFound, db)
        | some _ =>
          (.created, { db with liked := upsertLike db.liked u pid (normRating body.rating) (pyStrip body.notes) })

/-! CSV bulk upload (POST /places/upload-csv). A CSV cell is either an
    absent-or-blank string, a non-numeric string, or a parsed number; the
    Python float() conversion of the stripped cell is delegated to this
    three-way classification. -/

/-- Classification of a numeric CSV cell after stripping. -/
inductive NumCell
  | blank
  | notNum
  | val (q : ℚ)
deriving Repr, DecidableEq

/-- Whether the stripped cell string is empty. -/
def NumCell.isBlank : NumCell → Bool
  | .blank => true
  | _ => false

/-- The float() result of the cell, if the conversion succeeds. -/
def NumCell.toVal : NumCell → Option ℚ
  | .val q => some q
  | _ => none

/-- One data row of the uploaded CSV, keyed by lowercased headers; None means
    the column is absent. String fields carry the raw cell text. -/
structure CsvRow where
  name : Option String
  lat : NumCell
  lon : NumCell
  city : Option String
  state : Option String
  country : Option String
  source_id : Option String
  place_type : Option String
deriving Repr, DecidableEq

/-- Per-row verdict of the upload loop, in the order of the source checks:
    place_type validity, then name presence, then lat/lon presence, then the
    float conversion and validate_coordinates, then source_id generation (a
    uuid4-based fresh id, modelled by the row number) and the duplicate test
    against the existing source ids. An error verdict is recorded as a skip
    with that reason; an ok verdict carries the inserted source id. Error
    texts follow the source messages (with the quoting around inserted
    values omitted). -/
def rowVerdict (dbIds : List String) (rowNum : Nat) (row : CsvRow) :
    Except String String :=
  let place_type := (pyLower (pyStrip (row.place_type.getD "brewery")))
  if place_type ∉ validPlaceTypes then
    .error ("Row " ++ toString rowNum ++ ": Invalid place_type " ++ place_type ++
            ". Must be one of: brewery, restaurant, tourist_place, hotel")
  else
    let name := (pyStrip (row.name.getD ""))
    if name = "" then .error ("Row " ++ toString rowNum ++ ": Name is required")
    else if row.lat.isBlank || row.lon.isBlank then
      .error ("Row " ++ toString rowNum ++ ": Latitude and longitude are required")
    else
      match row.lat.toVal, row.lon.toVal with
      | some la, some lo =>
        if (-90 ≤ la ∧ la ≤ 90) ∧ (-180 ≤ lo ∧ lo ≤ 180) then
          let sid0 := (pyStrip (row.source_id.getD ""))
          let sid := if sid0 = "" then "csv_" ++ toString rowNum else sid0
          if sid ∈ dbIds then
            .error ("Row " ++ toString rowNum ++ ": Duplicate source_id " ++ sid ++ " - skipped")
          else .ok sid
        else .error ("Row " ++ toString rowNum ++ ": Invalid coordinates - out of range")
      | _, _ =>
        .error ("Row " ++ toString rowNum ++ ": Invalid coordinates - could not convert string to float")

/-- Mutable state of the upload loop: the source ids visible to the
    duplicate check, the two counters and the accumulated error messages. -/
structure UploadState where
  db_source_ids : List String
  inserted : Nat
  skipped : Nat
  errors : List String
deriving Repr, DecidableEq

/-- One iteration of the upload loop: an error verdict counts a skip and
    appends its reason; an ok verdict inserts the row. Processing always
    continues with the next row. -/
def processRow (st : UploadState) (rowNum : Nat) (row : CsvRow) : UploadState :=
  match rowVerdict st.db_source_ids rowNum row with
  | .error msg => { st with skipped := st.skipped + 1, errors := st.errors ++ [msg] }
  | .ok sid => { st with db_source_ids := sid :: st.db_source_ids, inserted := st.inserted + 1 }

/-- The upload loop over all data rows (enumerate starts at 2; the header is
    row 1). -/
def processRows (st : UploadState) (rowNum : Nat) : List CsvRow → UploadState
  | [] => st
  | r :: rs => processRows (processRow st rowNum r) (rowNum + 1) rs

/-- The summary block of the upload response. -/
structure UploadSummary where
  inserted : Nat
  skipped : Nat
  total_rows : Nat
deriving Repr, DecidableEq

/-- The upload response: status, summary, the surfaced error list (first 20)
    and the full error count. -/
structure UploadResponse where
  status : Nat
  summary : UploadSummary
  errors : List String
  error_count : Nat
deriving Repr, DecidableEq

/-- The POST /places/upload-csv handler (app.py), given the resolved role
    (header resolution with the form-field fallback already applied) and the
    parsed data rows: 401 on a falsy role, 403 for any role other than
    admin_user, otherwise best-effort row-by-row processing committed once,
    answered 200 with counts, the first 20 error messages and the full error
    count. -/
def upload_csv (role : Option String) (rows : List CsvRow) (dbIds : List String) :
    UploadResponse :=
  if !(optStrTruthy role) then
    { status := 401, summary := { inserted := 0, skipped := 0, total_rows := 0 },
      errors := [], error_count := 0 }
  else if role ≠ some "admin_user" then
    { status := 403, summary := { inserted := 0, skipped := 0, total_rows := 0 },
      errors := [], error_count := 0 }
  else
    let final := processRows { db_source_ids := dbIds, inserted := 0, skipped := 0, errors := [] } 2 rows
    { status := 200,
      summary := { inserted := final.inserted, skipped := final.skipped,
                   total_rows := final.inserted + final.skipped },
      errors := final.errors.take 20,
      error_count := final.errors.length }

/-! MD5 (as used by within_radius to fabricate ratings): the reference
    algorithm over byte lists, with 32-bit words as naturals reduced modulo
    2 to the 32. -/

/-- Reduction to a 32-bit word. -/
def mask32 (x : Nat) : Nat := x % 4294967296

/-- 32-bit modular addition. -/
def add32 (a b : Nat) : Nat := (a + b) % 4294967296

/-- 32-bit complement. -/
def not32 (x : Nat) : Nat := Nat.xor x 4294967295

/-- 32-bit left rotation. -/
def rotl32 (x s : Nat) : Nat := mask32 (x <<< s) ||| (x >>> (32 - s))

/-- The 64 MD5 round constants, floor(abs(sin(i + 1)) times 2 to the 32). -/
def md5K : List Nat :=
  [3614090360, 3905402710, 606105819, 3250441966, 4118548399, 1200080426, 2821735955, 4249261313,
   1770035416, 2336552879, 4294925233, 2304563134, 1804603682, 4254626195, 2792965006, 1236535329,
   4129170786, 3225465664, 643717713, 3921069994, 3593408605, 38016083, 3634488961, 3889429448,
   568446438, 3275163606, 4107603335, 1163531501, 2850285829, 4243563512, 1735328473, 2368359562,
   4294588738, 2272392833, 1839030562, 4259657740, 2763975236, 1272893353, 4139469664, 3200236656,
   681279174, 3936430074, 3572445317, 76029189, 3654602809, 3873151461, 530742520, 3299628645,
   4096336452, 1126891415, 2878612391, 4237533241, 1700485571, 2399980690, 4293915773, 2240044497,
   1873313359, 4264355552, 2734768916, 1309151649, 4149444226, 3174756917, 718787259, 3951481745]

/-- The 64 MD5 per-round shift amounts. -/
def md5S : List Nat :=
  [7, 12, 17, 22, 7, 12, 17, 22, 7, 12, 17, 22, 7, 12, 17, 22,
   5, 9, 14, 20, 5, 9, 14, 20, 5, 9, 14, 20, 5, 9, 14, 20,
   4, 11, 16, 23, 4, 11, 16, 23, 4, 11, 16, 23, 4, 11, 16, 23,
   6, 10, 15, 21, 6, 10, 15, 21, 6, 10, 15, 21, 6, 10, 15, 21]

/-- Little-endian serialization of a value into the given number of bytes. -/
def leBytes (n count : Nat) : List Nat :=
  (List.range count).map (fun i => (n >>> (8 * i)) % 256)

/-- MD5 padding: a 0x80 byte, zeros to 56 mod 64, then the 64-bit
    little-endian bit length. -/
def md5Pad (msg : List Nat) : List Nat :=
  let len := msg.length
  let padLen := (119 - (len % 64)) % 64
  msg ++ [128] ++ List.replicate padLen 0 ++ leBytes (8 * len) 8

/-- Word g of a 64-byte chunk, little-endian. -/
def chunkWord (chunk : List Nat) (g : Nat) : Nat :=
  chunk.getD (4 * g) 0 + (chunk.getD (4 * g + 1) 0) <<< 8 +
  (chunk.getD (4 * g + 2) 0) <<< 16 + (chunk.getD (4 * g + 3) 0) <<< 24

/-- Round function and message index of MD5 iteration i. -/
def md5FG (i b c d : Nat) : Nat × Nat :=
  if i < 16 then ((b &&& c) ||| (not32 b &&& d), i)
  else if i < 32 then ((d &&& b) ||| (not32 d &&& c), (5 * i + 1) % 16)
  else if i < 48 then (Nat.xor (Nat.xor b c) d, (3 * i + 5) % 16)
  else (Nat.xor c (b ||| not32 d), (7 * i) % 16)

/-- The 64-iteration compression of one chunk, followed by the feed-forward
    addition of the incoming state. -/
def md5Compress (chunk : List Nat) (st : Nat × Nat × Nat × Nat) :
    Nat × Nat × Nat × Nat :=
  let res := (List.range 64).foldl
    (fun (s : Nat × Nat × Nat × Nat) i =>
      let a := s.1
      let b := s.2.1
      let c := s.2.2.1
      let d := s.2.2.2
      let fg := md5FG i b c d
      let f2 := add32 (add32 (add32 fg.1 a) (md5K.getD i 0)) (chunkWord chunk fg.2)
      (d, add32 b (rotl32 f2 (md5S.getD i 0)), b, c))
    st
  (add32 st.1 res.1, add32 st.2.1 res.2.1, add32 st.2.2.1 res.2.2.1, add32 st.2.2.2 res.2.2.2)

/-- Fuel-driven split of the padded message into 64-byte chunks. -/
def md5Chunks : Nat → List Nat → List (List Nat)
  | 0, _ => []
  | _ + 1, [] => []
  | fuel + 1, l => l.take 64 :: md5Chunks fuel (l.drop 64)

/-- MD5 state words of a byte message. -/
def md5Words (msg : List Nat) : Nat × Nat × Nat × Nat :=
  let padded := md5Pad msg
  (md5Chunks padded.length padded).foldl (fun st chunk => md5Compress chunk st)
    (1732584193, 4023233417, 2562383102, 271733878)

/-- UTF-8 bytes of an ASCII string (place ids are decimal digit strings). -/
def strBytes (s : String) : List Nat :=
  s.data.map Char.toNat

/-- int(hashlib.md5(s.encode()).hexdigest()[:8], 16): the first four digest
    bytes, i.e. the little-endian bytes of the first state word, read as a
    big-endian hex number. -/
def hashValue (s : String) : Nat :=
  let a := (md5Words (strBytes s)).1
  ((a % 256) <<< 24) ||| (((a >>> 8) % 256) <<< 16) |||
  (((a >>> 16) % 256) <<< 8) ||| (a >>> 24)

/-- Rounding to one decimal place (Python round(x, 1) on these values; exact
    ties between neighbouring tenths may be broken differently by binary
    floats, but both neighbours lie in the ranges proved below). -/
def roundTenths (q : ℚ) : ℚ := ((⌊10 * q + 1/2⌋ : ℤ) : ℚ) / 10

/-- The hash drawn from the place id in within_radius:
    int(hashlib.md5(str(place_id).encode()).hexdigest()[:8], 16). -/
def mockHashOfId (pid : Nat) : Nat := hashValue (toString pid)

/-- The fabricated rating: round(3.5 + (hash mod 130) / 100, 1). -/
def mock_rating (pid : Nat) : ℚ :=
  roundTenths (((350 + mockHashOfId pid % 130 : ℕ) : ℚ) / 100)

/-- The fabricated review count: 50 + hash mod 1950. -/
def mock_review_count (pid : Nat) : Nat := 50 + mockHashOfId pid % 1950

/-- The place types that receive a fabricated rating when none is stored. -/
def mockRatingTypes : List String := ["restaurant", "tourist_place", "hotel"]

/-- The rating_value computation of within_radius: a stored rating counts
    only when strictly positive. -/
def ratingValue (stored : Option ℚ) : Option ℚ :=
  match stored with
  | some r => if 0 < r then some r else none
  | none => none

/-- The rating/review_count decoration of a within_radius feature (app.py):
    with no positive stored rating and a type in mockRatingTypes both values
    are fabricated from the place id; with a positive stored rating the
    stored value is kept and only the review count is fabricated; otherwise
    both stay None. -/
def ratingDecoration (stored : Option ℚ) (place_type : String) (pid : Nat) :
    Option ℚ × Option Nat :=
  match ratingValue stored with
  | none =>
    if place_type ∈ mockRatingTypes then
      (some (mock_rating pid), some (mock_review_count pid))
    else (none, none)
  | some rv => (some rv, some (mock_review_count pid))

/-! Theorems. Helper lemmas come first; the claim theorems and their
    witnesses follow, one per claim. -/

/-- Deleting a key from the fallback dictionary makes lookups of that key
    fail. -/
theorem storeLookup_erase (s : TokenStore) (t : String) :
    storeLookup (storeErase s t) t = none := by
  have hfind : List.find? (fun p => p.1 == t) (storeErase s t) = none := by
    rw [List.find?_eq_none]
    intro x hx
    have hq := (List.mem_filter.mp hx).2
    simp only [bne_iff_ne, ne_eq] at hq
    simp [hq]
  simp [storeLookup, hfind]

/-- Looking up a freshly stored token finds the freshly written record. -/
theorem storeLookup_store_token (s : TokenStore) (token role : String)
    (uid : Option Int) (now : ℚ) :
    storeLookup (store_token s token role uid now) token
      = some { user_role := role, user_id := uid, created_at := now,
               expires_at := now + TOKEN_TTL } := by
  simp [store_token, storeInsert, storeLookup, List.find?_cons]

/-- C2 counterexample: the empty string is storable via store_token, but a
    get_token_data call strictly before the stored expiry returns None (the
    falsy-token guard fires), not the stored role and user id as the claim
    asserts for every stored token. -/
theorem c2_empty_token_counterexample :
    (100 : ℚ) < 0 + TOKEN_TTL ∧
    (get_token_data (store_token [] "" "admin_user" (some 1) 0) "" 100).1 = none := by
  refine ⟨by norm_num [TOKEN_TTL], rfl⟩

/-- C2 (amended to non-empty tokens): for every non-empty token stored via
    store_token, get_token_data strictly before the expiry (creation time
    plus 1800 seconds) returns the stored role and user id and leaves the
    store unchanged; strictly after the expiry it returns None and removes
    the entry, so a subsequent get also returns None. -/
theorem c2_token_lifecycle (s : TokenStore) (token role : String)
    (uid : Option Int) (t0 t1 t2 : ℚ)
    (hne : token ≠ "") (h1 : t1 < t0 + TOKEN_TTL) (h2 : t0 + TOKEN_TTL < t2) :
    (get_token_data (store_token s token role uid t0) token t1).1
      = some { user_role := role, user_id := uid, created_at := t0,
               expires_at := t0 + TOKEN_TTL } ∧
    (get_token_data (store_token s token role uid t0) token t1).2
      = store_token s token role uid t0 ∧
    (get_token_data (store_token s token role uid t0) token t2).1 = none ∧
    storeLookup (get_token_data (store_token s token role uid t0) token t2).2 token = none ∧
    (get_token_data (get_token_data (store_token s token role uid t0) token t2).2 token t2).1
      = none := by
  have hlook := storeLookup_store_token s token role uid t0
  have hnotexp : ¬(t0 + TOKEN_TTL < t1) := not_lt.mpr (le_of_lt h1)
  have e2 : (get_token_data (store_token s token role uid t0) token t2)
      = (none, storeErase (store_token s token role uid t0) token) := by
    simp [get_token_data, hne, hlook, h2]
  refine ⟨?_, ?_, ?_, ?_, ?_⟩
  · simp [get_token_data, hne, hlook, hnotexp]
  · simp [get_token_data, hne, hlook, hnotexp]
  · simp [e2]
  · rw [e2]
    exact storeLookup_erase _ _
  · rw [e2]
    simp [get_token_data, hne, storeLookup_erase]

/-- One hundred seconds is strictly before the standard TTL. -/
theorem ttl_before_hundred : (100 : ℚ) < 0 + TOKEN_TTL := by
  norm_num [TOKEN_TTL]

/-- Two thousand seconds is strictly after the standard TTL. -/
theorem ttl_after_two_thousand : (0 : ℚ) + TOKEN_TTL < 2000 := by
  norm_num [TOKEN_TTL]

/-- Witness for the amended C2 at a concrete token, role and timeline. -/
theorem c2_token_lifecycle_witness :
    (get_token_data (store_token [] "tok" "app_user" (some 5) 0) "tok" 100).1
      = some { user_role := "app_user", user_id := some 5, created_at := 0,
               expires_at := 0 + TOKEN_TTL } ∧
    (get_token_data (store_token [] "tok" "app_user" (some 5) 0) "tok" 2000).1 = none :=
  ⟨(c2_token_lifecycle [] "tok" "app_user" (some 5) 0 100 2000 (by decide)
      ttl_before_hundred ttl_after_two_thousand).1,
   (c2_token_lifecycle [] "tok" "app_user" (some 5) 0 100 2000 (by decide)
      ttl_before_hundred ttl_after_two_thousand).2.2.1⟩

/-- C3 counterexample: with a freshly stored token in the store, an explicit
    logout leaves the token store unchanged and a subsequent lookup of that
    token still returns its data, contradicting the claim that logout deletes
    the token from the token store. -/
theorem c3_logout_counterexample :
    (logout { user_role := some "admin_user", permissions := ["ALL"] }
        (store_token [] "tok1" "admin_user" (some 7) 0)).2.2
      = store_token [] "tok1" "admin_user" (some 7) 0 ∧
    (get_token_data
        (logout { user_role := some "admin_user", permissions := ["ALL"] }
          (store_token [] "tok1" "admin_user" (some 7) 0)).2.2 "tok1" 100).1
      = some { user_role := "admin_user", user_id := some 7, created_at := 0,
               expires_at := 1800 } := by
  constructor
  · rfl
  · have h18 : (0 : ℚ) + TOKEN_TTL = 1800 := by norm_num [TOKEN_TTL]
    have hlook := storeLookup_store_token [] "tok1" "admin_user" (some 7) 0
    rw [h18] at hlook
    simp [logout, get_token_data, hlook]
    norm_num

/-- C3 (amended): the POST /auth/logout handler clears the server-side
    session and answers 200, but performs no token-store deletion: the store
    is returned unchanged and any token lookup after logout returns exactly
    what it returned before. -/
theorem c3_logout_session_only (sess : Session) (store : TokenStore)
    (token : String) (now : ℚ) :
    (logout sess store).1.status = 200 ∧
    (logout sess store).2.1 = emptySession ∧
    (logout sess store).2.2 = store ∧
    get_token_data (logout sess store).2.2 token now = get_token_data store token now :=
  ⟨rfl, rfl, rfl, rfl⟩

/-- C9: request-identity resolution order. A Bearer token that validates to a
    truthy role wins; otherwise a truthy X-Auth-Token validation wins (run
    against the store left by the first method, modelling lazy eviction);
    otherwise the session-cookie role is used as-is; when the session key is
    also absent the resolved role is None. -/
theorem c9_auth_resolution (req : RequestCtx) (store : TokenStore) (now : ℚ) :
    (∀ h r, req.headers.authorization = some h → pyStartsWith h "Bearer " = true →
        (validate_token store now (pyStrip (pyDropChars h 7))).1 = some r → r ≠ "" →
        (get_user_role_from_request req store now).1 = some r) ∧
    (∀ t r, roleTruthy (authMethod1 req store now).1 = false →
        req.headers.x_auth_token = some t → t ≠ "" →
        (validate_token (authMethod1 req store now).2 now (pyStrip t)).1 = some r → r ≠ "" →
        (get_user_role_from_request req store now).1 = some r) ∧
    (∀ v, roleTruthy (authMethod1 req store now).1 = false →
        roleTruthy (authMethod2 req (authMethod1 req store now).2 now).1 = false →
        req.session.user_role = some v →
        (get_user_role_from_request req store now).1 = some v) ∧
    (roleTruthy (authMethod1 req store now).1 = false →
        roleTruthy (authMethod2 req (authMethod1 req store now).2 now).1 = false →
        req.session.user_role = none →
        (get_user_role_from_request req store now).1 = none) := by
  refine ⟨?_, ?_, ?_, ?_⟩
  · intro h r hauth hbear hval hr
    have htok : pyStrip (pyDropChars h 7) ≠ "" := by
      intro he
      rw [he] at hval
      simp [validate_token] at hval
    have hm1 : authMethod1 req store now
        = validate_token store now (pyStrip (pyDropChars h 7)) := by
      simp [authMethod1, hauth, hbear, htok]
    have htr : roleTruthy (authMethod1 req store now).1 = true := by
      rw [hm1, hval]
      simpa [roleTruthy] using hr
    simp only [get_user_role_from_request, htr, if_true]
    rw [hm1, hval]
  · intro t r hm1 hx ht hval hr
    have hm2 : authMethod2 req (authMethod1 req store now).2 now
        = validate_token (authMethod1 req store now).2 now (pyStrip t) := by
      simp [authMethod2, hx, ht]
    have htr : roleTruthy (authMethod2 req (authMethod1 req store now).2 now).1 = true := by
      rw [hm2, hval]
      simpa [roleTruthy] using hr
    simp only [get_user_role_from_request, hm1, htr, if_false, if_true, Bool.false_eq_true]
    rw [hm2, hval]
  · intro v hm1 hm2 hs
    simp [get_user_role_from_request, hm1, hm2, hs]
  · intro hm1 hm2 hs
    simp [get_user_role_from_request, hm1, hm2, hs]

/-- Validation of a freshly stored, not yet expired token yields its role. -/
theorem validate_token_fresh (s : TokenStore) (token role : String)
    (uid : Option Int) (t0 now : ℚ)
    (hne : token ≠ "") (hexp : ¬(t0 + TOKEN_TTL < now)) :
    (validate_token (store_token s token role uid t0) now token).1 = some role := by
  simp [validate_token, hne, get_token_data, storeLookup_store_token, hexp]

/-- A ten-second-old token with the standard TTL has not expired. -/
theorem ttl_not_expired_at_ten : ¬((0 : ℚ) + TOKEN_TTL < 10) := by
  norm_num [TOKEN_TTL]

/-- Witness for C9: one concrete request per resolution path (Bearer header,
    X-Auth-Token header, session cookie, and nothing at all). -/
theorem c9_auth_resolution_witness :
    (get_user_role_from_request
       { headers := { authorization := some "Bearer abc", x_auth_token := none },
         session := { user_role := none, permissions := [] } }
       (store_token [] "abc" "admin_user" (some 1) 0) 10).1 = some "admin_user" ∧
    (get_user_role_from_request
       { headers := { authorization := none, x_auth_token := some "xyz" },
         session := { user_role := none, permissions := [] } }
       (store_token [] "xyz" "app_user" none 0) 10).1 = some "app_user" ∧
    (get_user_role_from_request
       { headers := { authorization := none, x_auth_token := none },
         session := { user_role := some "readonly_user", permissions := [] } }
       [] 10).1 = some "readonly_user" ∧
    (get_user_role_from_request
       { headers := { authorization := none, x_auth_token := none },
         session := { user_role := none, permissions := [] } }
       [] 10).1 = none :=
  ⟨(c9_auth_resolution _ _ _).1 "Bearer abc" "admin_user" rfl (by decide)
     (validate_token_fresh [] "abc" "admin_user" (some 1) 0 10 (by decide) ttl_not_expired_at_ten)
     (by decide),
   (c9_auth_resolution _ _ _).2.1 "xyz" "app_user" (by decide) rfl (by decide)
     (validate_token_fresh [] "xyz" "app_user" none 0 10 (by decide) ttl_not_expired_at_ten)
     (by decide),
   (c9_auth_resolution _ _ _).2.2.1 "readonly_user" (by decide) (by decide) rfl,
   (c9_auth_resolution _ _ _).2.2.2 (by decide) (by decide) rfl⟩

/-- C1: for every radius-search request accepted by the schema, a truthy
    state filter together with a requested radius below 500 km makes the
    executed query use 500 km; a truthy state filter with a radius of at
    least 500 km, or an absent state filter, leaves the requested radius
    unchanged. -/
theorem c1_state_filter_widens (a : RadiusArgs) (k : ℚ)
    (hk : a.km = some k) (hacc : (within_radius a).queriesDb = true) :
    (optStrTruthy a.state = true → k < 500 → (within_radius a).effRadius = some 500) ∧
    (optStrTruthy a.state = true → 500 ≤ k → (within_radius a).effRadius = some k) ∧
    (a.state = none → (within_radius a).effRadius = some k) := by
  cases h : radiusSchemaErrors a with
  | cons e es =>
    rw [within_radius, h] at hacc
    simp [RadiusResult.queriesDb] at hacc
  | nil =>
    refine ⟨?_, ?_, ?_⟩
    · intro hs hlt
      simp [within_radius, h, RadiusResult.effRadius, hk, hs, hlt]
    · intro hs hge
      simp [within_radius, h, RadiusResult.effRadius, hk, hs, not_lt.mpr hge]
    · intro hs
      simp [within_radius, h, RadiusResult.effRadius, hk, hs, optStrTruthy]

/-- Witness for C1: the spec scenario, lat 29.76, lon -95.37, km 5 with and
    without the Texas state filter. -/
theorem c1_state_filter_widens_witness :
    (within_radius
       { lat := some (mkRat 2976 100), lon := some (mkRat (-9537) 100), km := some 5,
         state := some "Texas", name := none, place_type := none }).effRadius = some 500 ∧
    (within_radius
       { lat := some (mkRat 2976 100), lon := some (mkRat (-9537) 100), km := some 5,
         state := none, name := none, place_type := none }).effRadius = some 5 :=
  ⟨(c1_state_filter_widens _ 5 rfl (by decide)).1 (by decide) (by decide),
   (c1_state_filter_widens _ 5 rfl (by decide)).2.2 rfl⟩

/-- C4: ownership gating of place mutations. An authenticated non-admin user
    who did not create an existing place receives 403 from both update and
    delete, with the places table unchanged, regardless of the payload; the
    admin_user role deletes any existing place and updates any existing place
    with a valid non-empty payload, with no ownership restriction (the
    creator is universally quantified). -/
theorem c4_ownership_gate (db : PlacesDb) (pid u : Nat) (r : String)
    (b : UpdateBody) (p : Place)
    (hu : u ≠ 0) (hfind : findPlace db pid = some p)
    (howner : p.created_by ≠ some u) (hr : r ≠ "admin_user") :
    ((update_place pid (some u) (some r) b db).1.status = 403 ∧
     (update_place pid (some u) (some r) b db).2 = db) ∧
    ((delete_place pid (some u) (some r) db).1.status = 403 ∧
     (delete_place pid (some u) (some r) db).2 = db) ∧
    (∀ db2 : PlacesDb, ∀ pid2 u2 : Nat, ∀ p2 : Place, u2 ≠ 0 →
       findPlace db2 pid2 = some p2 →
       (delete_place pid2 (some u2) (some "admin_user") db2).1.status = 200 ∧
       (delete_place pid2 (some u2) (some "admin_user") db2).2
         = db2.filter (fun q => q.id != pid2)) ∧
    (∀ db2 : PlacesDb, ∀ pid2 u2 : Nat, ∀ b2 : UpdateBody, ∀ p2 : Place, u2 ≠ 0 →
       findPlace db2 pid2 = some p2 → updateCoordsValid b2 = true → hasUpdates b2 = true →
       (update_place pid2 (some u2) (some "admin_user") b2 db2).1.status = 200) := by
  refine ⟨?_, ?_, ?_, ?_⟩
  · by_cases hmem : r ∈ updateAllowedRoles
    · simp [update_place, optNatTruthy, hu, hmem, hr, hfind, howner, HttpOutcome.status]
    · simp [update_place, optNatTruthy, hu, hmem, HttpOutcome.status]
  · by_cases hmem : r ∈ deleteAllowedRoles
    · have hcur : r = "curator_user" := by
        simp [deleteAllowedRoles] at hmem
        rcases hmem with h | h
        · exact absurd h hr
        · exact h
      subst hcur
      simp [delete_place, optNatTruthy, hu, deleteAllowedRoles, hfind, howner,
            HttpOutcome.status]
    · simp [delete_place, optNatTruthy, hu, hmem, HttpOutcome.status]
  · intro db2 pid2 u2 p2 hu2 hfind2
    simp [delete_place, optNatTruthy, hu2, deleteAllowedRoles, deleteExec, hfind2,
          HttpOutcome.status]
  · intro db2 pid2 u2 b2 p2 hu2 hfind2 hcv hup
    simp [update_place, optNatTruthy, hu2, updateAllowedRoles, updateExec, hfind2,
          hcv, hup, HttpOutcome.status]

/-- Witness for C4: a three-row table; app_user 7 can neither update nor
    delete a place created by user 42, while admin_user 9 updates and deletes
    it freely. -/
theorem c4_ownership_gate_witness :
    (update_place 1 (some 7) (some "app_user")
        { name := some "B", city := none, state := none, country := none,
          lat := none, lon := none }
        [{ id := 1, name := "A", city := "", state := "", country := "US",
           lat := 0, lon := 0, created_by := some 42 }]).1.status = 403 ∧
    (delete_place 1 (some 7) (some "app_user")
        [{ id := 1, name := "A", city := "", state := "", country := "US",
           lat := 0, lon := 0, created_by := some 42 }]).1.status = 403 ∧
    (delete_place 1 (some 9) (some "admin_user")
        [{ id := 1, name := "A", city := "", state := "", country := "US",
           lat := 0, lon := 0, created_by := some 42 }]).1.status = 200 ∧
    (update_place 1 (some 9) (some "admin_user")
        { name := some "B", city := none, state := none, country := none,
          lat := none, lon := none }
        [{ id := 1, name := "A", city := "", state := "", country := "US",
           lat := 0, lon := 0, created_by := some 42 }]).1.status = 200 :=
  ⟨((c4_ownership_gate
      [{ id := 1, name := "A", city := "", state := "", country := "US",
         lat := 0, lon := 0, created_by := some 42 }] 1 7 "app_user" _
      { id := 1, name := "A", city := "", state := "", country := "US",
        lat := 0, lon := 0, created_by := some 42 }
      (by decide) (by decide) (by decide) (by decide)).1).1,
   ((c4_ownership_gate
      [{ id := 1, name := "A", city := "", state := "", country := "US",
         lat := 0, lon := 0, created_by := some 42 }] 1 7 "app_user"
      { name := some "B", city := none, state := none, country := none,
        lat := none, lon := none }
      { id := 1, name := "A", city := "", state := "", country := "US",
        lat := 0, lon := 0, created_by := some 42 }
      (by decide) (by decide) (by decide) (by decide)).2.1).1,
   ((c4_ownership_gate
      [{ id := 1, name := "A", city := "", state := "", country := "US",
         lat := 0, lon := 0, created_by := some 42 }] 1 7 "app_user"
      { name := some "B", city := none, state := none, country := none,
        lat := none, lon := none }
      { id := 1, name := "A", city := "", state := "", country := "US",
        lat := 0, lon := 0, created_by := some 42 }
      (by decide) (by decide) (by decide) (by decide)).2.2.1 _ 1 9
      { id := 1, name := "A", city := "", state := "", country := "US",
        lat := 0, lon := 0, created_by := some 42 } (by decide) (by decide)).1,
   (c4_ownership_gate
      [{ id := 1, name := "A", city := "", state := "", country := "US",
         lat := 0, lon := 0, created_by := some 42 }] 1 7 "app_user"
      { name := some "B", city := none, state := none, country := none,
        lat := none, lon := none }
      { id := 1, name := "A", city := "", state := "", country := "US",
        lat := 0, lon := 0, created_by := some 42 }
      (by decide) (by decide) (by decide) (by decide)).2.2.2 _ 1 9 _
      { id := 1, name := "A", city := "", state := "", country := "US",
        lat := 0, lon := 0, created_by := some 42 } (by decide) (by decide)
      (by decide) (by decide)⟩

/-- Filtering after a keyed in-place update maps the update over the
    previously matching rows, provided the update preserves the key. -/
theorem filter_map_keyed {α : Type} (k : α → Bool) (f : α → α)
    (hf : ∀ x, k x = true → k (f x) = true) (l : List α) :
    (l.map (fun r => if k r then f r else r)).filter k = (l.filter k).map f := by
  induction l with
  | nil => rfl
  | cons hd tl ih =>
    by_cases h : k hd
    · simp [h, hf hd h, ih]
    · simp [h, ih]

/-- A list none of whose elements satisfies the predicate filters to nil. -/
theorem filter_eq_nil_of_any_eq_false {α : Type} (k : α → Bool) (l : List α)
    (h : l.any k = false) : l.filter k = [] := by
  rw [List.filter_eq_nil_iff]
  intro a ha
  exact (List.any_eq_false.mp h) a ha

/-- The wishlist upsert leaves exactly one row under the key, carrying the
    last written priority and notes, whenever the unique-key invariant held
    before. -/
theorem upsertWish_filter (l : List WishRow) (u pid : Nat) (prio : Int) (n : String)
    (hc : wishCount l u pid ≤ 1) :
    (upsertWish l u pid prio n).filter (wishKey u pid)
      = [{ user_id := u, place_id := pid, priority := prio, notes := n }] := by
  by_cases ha : l.any (wishKey u pid) = true
  · rw [upsertWish, if_pos ha,
      filter_map_keyed (wishKey u pid) (fun r => { r with priority := prio, notes := n })
        (by intro x hx; simpa [wishKey] using hx)]
    have hpos : 0 < wishCount l u pid := by
      rcases List.any_eq_true.mp ha with ⟨x, hx, hkx⟩
      exact List.length_pos.mpr (List.ne_nil_of_mem (List.mem_filter.mpr ⟨hx, hkx⟩))
    rcases List.length_eq_one.mp (le_antisymm hc hpos) with ⟨x, hx⟩
    have hkx : wishKey u pid x = true := by
      have hmem : x ∈ l.filter (wishKey u pid) := by
        rw [hx]
        exact List.mem_singleton_self x
      exact (List.mem_filter.mp hmem).2
    obtain ⟨xu, xp, xprio, xnotes⟩ := x
    simp only [wishKey, Bool.and_eq_true, beq_iff_eq] at hkx
    rw [hx]
    simp [hkx.1, hkx.2]
  · have ha2 : l.any (wishKey u pid) = false := by simpa using ha
    rw [upsertWish, if_neg ha, List.filter_append,
      filter_eq_nil_of_any_eq_false _ _ ha2]
    simp [wishKey]

/-- The visited upsert leaves exactly one row under the key, with the last
    notes and timestamp. -/
theorem upsertVisit_filter (l : List VisitRow) (u pid : Nat) (n : String) (now : ℚ)
    (hc : visitCount l u pid ≤ 1) :
    (upsertVisit l u pid n now).filter (visitKey u pid)
      = [{ user_id := u, place_id := pid, notes := n, visited_at := now }] := by
  by_cases ha : l.any (visitKey u pid) = true
  · rw [upsertVisit, if_pos ha,
      filter_map_keyed (visitKey u pid) (fun r => { r with notes := n, visited_at := now })
        (by intro x hx; simpa [visitKey] using hx)]
    have hpos : 0 < visitCount l u pid := by
      rcases List.any_eq_true.mp ha with ⟨x, hx, hkx⟩
      exact List.length_pos.mpr (List.ne_nil_of_mem (List.mem_filter.mpr ⟨hx, hkx⟩))
    rcases List.length_eq_one.mp (le_antisymm hc hpos) with ⟨x, hx⟩
    have hkx : visitKey u pid x = true := by
      have hmem : x ∈ l.filter (visitKey u pid) := by
        rw [hx]
        exact List.mem_singleton_self x
      exact (List.mem_filter.mp hmem).2
    obtain ⟨xu, xp, xnotes, xat⟩ := x
    simp only [visitKey, Bool.and_eq_true, beq_iff_eq] at hkx
    rw [hx]
    simp [hkx.1, hkx.2]
  · have ha2 : l.any (visitKey u pid) = false := by simpa using ha
    rw [upsertVisit, if_neg ha, List.filter_append,
      filter_eq_nil_of_any_eq_false _ _ ha2]
    simp [visitKey]

/-- The liked upsert leaves exactly one row under the key, with the last
    notes and the COALESCE rating over some previous value. -/
theorem upsertLike_filter (l : List LikeRow) (u pid : Nat) (rat : Option Int) (n : String)
    (hc : likeCount l u pid ≤ 1) :
    ∃ old : Option Int,
      (upsertLike l u pid rat n).filter (likeKey u pid)
        = [{ user_id := u, place_id := pid,
             rating := match rat with | some v => some v | none => old,
             notes := n }] := by
  by_cases ha : l.any (likeKey u pid) = true
  · rw [upsertLike, if_pos ha,
      filter_map_keyed (likeKey u pid)
        (fun r => { r with rating := match rat with | some v => some v | none => r.rating,
                           notes := n })
        (by intro x hx; simpa [likeKey] using hx)]
    have hpos : 0 < likeCount l u pid := by
      rcases List.any_eq_true.mp ha with ⟨x, hx, hkx⟩
      exact List.length_pos.mpr (List.ne_nil_of_mem (List.mem_filter.mpr ⟨hx, hkx⟩))
    rcases List.length_eq_one.mp (le_antisymm hc hpos) with ⟨x, hx⟩
    have hkx : likeKey u pid x = true := by
      have hmem : x ∈ l.filter (likeKey u pid) := by
        rw [hx]
        exact List.mem_singleton_self x
      exact (List.mem_filter.mp hmem).2
    obtain ⟨xu, xp, xrat, xnotes⟩ := x
    simp only [likeKey, Bool.and_eq_true, beq_iff_eq] at hkx
    rw [hx]
    exact ⟨xrat, by simp [hkx.1, hkx.2]⟩
  · have ha2 : l.any (likeKey u pid) = false := by simpa using ha
    rw [upsertLike, if_neg ha, List.filter_append,
      filter_eq_nil_of_any_eq_false _ _ ha2]
    refine ⟨rat, ?_⟩
    cases rat <;> simp [likeKey]

/-- C5: adding to the wishlist twice for the same (user, place) leaves
    exactly one row for that pair, carrying the second payload (priority and
    stripped notes), and the second call returns 201 rather than a
    duplicate-key failure; the analogous upserts hold for the visited list
    (notes and timestamp rewritten) and the liked list (notes rewritten,
    rating coalesced over the previous value). -/
theorem c5_upsert_idempotence (db : ListsDb) (u pid : Nat) (pl : Place)
    (b1 b2 : WishPayload) (v1 v2 : VisitPayload) (k1 k2 : LikePayload) (t1 t2 : ℚ)
    (hu : u ≠ 0) (hpid : pid ≠ 0)
    (hplace : findPlace db.places pid = some pl)
    (hb1 : b1.place_id = some pid) (hb2 : b2.place_id = some pid)
    (hv1 : v1.place_id = some pid) (hv2 : v2.place_id = some pid)
    (hk1 : k1.place_id = some pid) (hk2 : k2.place_id = some pid)
    (hwc : wishCount db.wishlist u pid ≤ 1)
    (hvc : visitCount db.visited u pid ≤ 1)
    (hlc : likeCount db.liked u pid ≤ 1)
    (hprio : 1 ≤ b2.priority ∧ b2.priority ≤ 3) :
    (add_to_wishlist (some u) b1 db).1 = .created ∧
    (add_to_wishlist (some u) b2 (add_to_wishlist (some u) b1 db).2).1 = .created ∧
    ((add_to_wishlist (some u) b2 (add_to_wishlist (some u) b1 db).2).2.wishlist.filter
        (wishKey u pid))
      = [{ user_id := u, place_id := pid, priority := b2.priority,
           notes := pyStrip b2.notes }] ∧
    (add_to_visited (some u) v2 t2 (add_to_visited (some u) v1 t1 db).2).1 = .created ∧
    ((add_to_visited (some u) v2 t2 (add_to_visited (some u) v1 t1 db).2).2.visited.filter
        (visitKey u pid))
      = [{ user_id := u, place_id := pid, notes := pyStrip v2.notes, visited_at := t2 }] ∧
    (add_to_liked (some u) k2 (add_to_liked (some u) k1 db).2).1 = .created ∧
    (∃ old : Option Int,
      ((add_to_liked (some u) k2 (add_to_liked (some u) k1 db).2).2.liked.filter
          (likeKey u pid))
        = [{ user_id := u, place_id := pid,
             rating := match normRating k2.rating with | some v => some v | none => old,
             notes := pyStrip k2.notes }]) := by
  have hnorm : normPriority b2.priority = b2.priority := by
    rw [normPriority, if_neg]
    omega
  have hw1 : add_to_wishlist (some u) b1 db
      = (.created,
         { db with
             wishlist := upsertWish db.wishlist u pid (normPriority b1.priority)
               (pyStrip b1.notes) }) := by
    simp [add_to_wishlist, optNatTruthy, hu, hb1, hpid, hplace]
  have hw2 : add_to_wishlist (some u) b2 (add_to_wishlist (some u) b1 db).2
      = (.created,
         { db with
             wishlist := upsertWish
               (upsertWish db.wishlist u pid (normPriority b1.priority) (pyStrip b1.notes))
               u pid (normPriority b2.priority) (pyStrip b2.notes) }) := by
    rw [hw1]
    simp [add_to_wishlist, optNatTruthy, hu, hb2, hpid, hplace]
  have hwc1 : wishCount
      (upsertWish db.wishlist u pid (normPriority b1.priority) (pyStrip b1.notes)) u pid ≤ 1 := by
    rw [wishCount, upsertWish_filter _ _ _ _ _ hwc]
    simp
  have hs1 : add_to_visited (some u) v1 t1 db
      = (.created,
         { db with visited := upsertVisit db.visited u pid (pyStrip v1.notes) t1 }) := by
    simp [add_to_visited, optNatTruthy, hu, hv1, hpid, hplace]
  have hs2 : add_to_visited (some u) v2 t2 (add_to_visited (some u) v1 t1 db).2
      = (.created,
         { db with
             visited := upsertVisit (upsertVisit db.visited u pid (pyStrip v1.notes) t1)
               u pid (pyStrip v2.notes) t2 }) := by
    rw [hs1]
    simp [add_to_visited, optNatTruthy, hu, hv2, hpid, hplace]
  have hvc1 : visitCount (upsertVisit db.visited u pid (pyStrip v1.notes) t1) u pid ≤ 1 := by
    rw [visitCount, upsertVisit_filter _ _ _ _ _ hvc]
    simp
  have hl1 : add_to_liked (some u) k1 db
      = (.created,
         { db with
             liked := upsertLike db.liked u pid (normRating k1.rating)
               (pyStrip k1.notes) }) := by
    simp [add_to_liked, optNatTruthy, hu, hk1, hpid, hplace]
  have hl2 : add_to_liked (some u) k2 (add_to_liked (some u) k1 db).2
      = (.created,
         { db with
             liked := upsertLike
               (upsertLike db.liked u pid (normRating k1.rating) (pyStrip k1.notes))
               u pid (normRating k2.rating) (pyStrip k2.notes) }) := by
    rw [hl1]
    simp [add_to_liked, optNatTruthy, hu, hk2, hpid, hplace]
  have hlc1 : likeCount
      (upsertLike db.liked u pid (normRating k1.rating) (pyStrip k1.notes)) u pid ≤ 1 := by
    rcases upsertLike_filter db.liked u pid (normRating k1.rating) (pyStrip k1.notes) hlc
      with ⟨old, hold⟩
    rw [likeCount, hold]
    simp
  refine ⟨by rw [hw1], by rw [hw2], ?_, by rw [hs2], ?_, by rw [hl2], ?_⟩
  · rw [hw2]
    simpa [hnorm] using upsertWish_filter
      (upsertWish db.wishlist u pid (normPriority b1.priority) (pyStrip b1.notes))
      u pid (normPriority b2.priority) (pyStrip b2.notes) hwc1
  · rw [hs2]
    exact upsertVisit_filter _ _ _ _ _ hvc1
  · rw [hl2]
    exact upsertLike_filter _ _ _ _ _ hlc1

/-- Witness for C5: user 7 adds place 3 to all three lists twice; the second
    payload wins and each pair occupies exactly one row. -/
theorem c5_upsert_idempotence_witness :
    (add_to_wishlist (some 7) { place_id := some 3, priority := 2, notes := "second" }
        (add_to_wishlist (some 7) { place_id := some 3, priority := 1, notes := "first" }
          { places := [{ id := 3, name := "P", city := "", state := "", country := "US",
                         lat := 0, lon := 0, created_by := none }],
            wishlist := [], visited := [], liked := [] }).2).1 = .created ∧
    ((add_to_wishlist (some 7) { place_id := some 3, priority := 2, notes := "second" }
        (add_to_wishlist (some 7) { place_id := some 3, priority := 1, notes := "first" }
          { places := [{ id := 3, name := "P", city := "", state := "", country := "US",
                         lat := 0, lon := 0, created_by := none }],
            wishlist := [], visited := [], liked := [] }).2).2.wishlist.filter (wishKey 7 3))
      = [{ user_id := 7, place_id := 3, priority := 2, notes := pyStrip "second" }] :=
  ⟨(c5_upsert_idempotence
      { places := [{ id := 3, name := "P", city := "", state := "", country := "US",
                     lat := 0, lon := 0, created_by := none }],
        wishlist := [], visited := [], liked := [] } 7 3
      { id := 3, name := "P", city := "", state := "", country := "US",
        lat := 0, lon := 0, created_by := none }
      { place_id := some 3, priority := 1, notes := "first" }
      { place_id := some 3, priority := 2, notes := "second" }
      { place_id := some 3, notes := "v1" } { place_id := some 3, notes := "v2" }
      { place_id := some 3, rating := some 4, notes := "l1" }
      { place_id := some 3, rating := none, notes := "l2" } 0 1
      (by decide) (by decide) (by decide) (by decide) (by decide) (by decide)
      (by decide) (by decide) (by decide) (by decide) (by decide) (by decide)
      (by decide)).2.1,
   (c5_upsert_idempotence
      { places := [{ id := 3, name := "P", city := "", state := "", country := "US",
                     lat := 0, lon := 0, created_by := none }],
        wishlist := [], visited := [], liked := [] } 7 3
      { id := 3, name := "P", city := "", state := "", country := "US",
        lat := 0, lon := 0, created_by := none }
      { place_id := some 3, priority := 1, notes := "first" }
      { place_id := some 3, priority := 2, notes := "second" }
      { place_id := some 3, notes := "v1" } { place_id := some 3, notes := "v2" }
      { place_id := some 3, rating := some 4, notes := "l1" }
      { place_id := some 3, rating := none, notes := "l2" } 0 1
      (by decide) (by decide) (by decide) (by decide) (by decide) (by decide)
      (by decide) (by decide) (by decide) (by decide) (by decide) (by decide)
      (by decide)).2.2.1⟩

/-- Each iteration of the upload loop accounts for exactly one row, as an
    insert or as a skip. -/
theorem processRows_count_sum (rows : List CsvRow) : ∀ st n,
    (processRows st n rows).inserted + (processRows st n rows).skipped
      = st.inserted + st.skipped + rows.length := by
  induction rows with
  | nil => intro st n; simp [processRows]
  | cons r rs ih =>
    intro st n
    rw [processRows, ih]
    cases h : rowVerdict st.db_source_ids n r <;> simp [processRow, h] <;> omega

/-- Each skip appends exactly one error message, so the error count tracks
    the skip counter. -/
theorem processRows_err_skip (rows : List CsvRow) : ∀ st n,
    (processRows st n rows).errors.length + st.skipped
      = st.errors.length + (processRows st n rows).skipped := by
  induction rows with
  | nil => intro st n; simp [processRows]
  | cons r rs ih =>
    intro st n
    rw [processRows]
    have := ih (processRow st n r) (n + 1)
    cases h : rowVerdict st.db_source_ids n r <;>
      simp [processRow, h] at this ⊢ <;> omega

/-- C6: CSV bulk upload is restricted to admin_user (any other truthy role
    receives 403) and processes every row best-effort: the response is 200,
    reports inserted + skipped = total_rows with every row of the file
    accounted for, surfaces exactly the first 20 of the accumulated error
    messages, and accumulates one error message per skipped row. -/
theorem c6_csv_best_effort (role : Option String) (r : String)
    (rows : List CsvRow) (dbIds : List String) :
    (role = some r → r ≠ "" → r ≠ "admin_user" →
       (upload_csv role rows dbIds).status = 403) ∧
    (upload_csv (some "admin_user") rows dbIds).status = 200 ∧
    (upload_csv (some "admin_user") rows dbIds).summary.total_rows
      = (upload_csv (some "admin_user") rows dbIds).summary.inserted
        + (upload_csv (some "admin_user") rows dbIds).summary.skipped ∧
    (upload_csv (some "admin_user") rows dbIds).summary.inserted
      + (upload_csv (some "admin_user") rows dbIds).summary.skipped = rows.length ∧
    (upload_csv (some "admin_user") rows dbIds).errors
      = (processRows { db_source_ids := dbIds, inserted := 0, skipped := 0, errors := [] }
          2 rows).errors.take 20 ∧
    (upload_csv (some "admin_user") rows dbIds).errors.length ≤ 20 ∧
    (upload_csv (some "admin_user") rows dbIds).error_count
      = (upload_csv (some "admin_user") rows dbIds).summary.skipped := by
  have hsum := processRows_count_sum rows
      { db_source_ids := dbIds, inserted := 0, skipped := 0, errors := [] } 2
  have herr := processRows_err_skip rows
      { db_source_ids := dbIds, inserted := 0, skipped := 0, errors := [] } 2
  refine ⟨?_, ?_, ?_, ?_, ?_, ?_, ?_⟩
  · intro hrole hne hnadmin
    subst hrole
    simp [upload_csv, optStrTruthy, hne, hnadmin]
  · simp [upload_csv, optStrTruthy]
  · simp [upload_csv, optStrTruthy]
  · simp only [upload_csv, optStrTruthy]
    simpa using hsum
  · simp [upload_csv, optStrTruthy]
  · simp only [upload_csv, optStrTruthy]
    simp [List.length_take]
  · simp only [upload_csv, optStrTruthy]
    simpa using herr

/-- Witness for C6: a 403 for a readonly caller, and an admin upload of three
    rows (one valid, one with an unknown type, one with a blank name) that
    reports 200 with inserted 1, skipped 2 and two error messages. -/
theorem c6_csv_best_effort_witness :
    (upload_csv (some "readonly_user")
        [{ name := some "A", lat := .val 10, lon := .val 20, city := none, state := none,
           country := none, source_id := some "s1", place_type := none }] []).status = 403 ∧
    (upload_csv (some "admin_user")
        [{ name := some "A", lat := .val 10, lon := .val 20, city := none, state := none,
           country := none, source_id := some "s1", place_type := none },
         { name := some "B", lat := .val 10, lon := .val 20, city := none, state := none,
           country := none, source_id := some "s2", place_type := some "mall" },
         { name := some "", lat := .val 10, lon := .val 20, city := none, state := none,
           country := none, source_id := some "s3", place_type := none }] []).status = 200 ∧
    (upload_csv (some "admin_user")
        [{ name := some "A", lat := .val 10, lon := .val 20, city := none, state := none,
           country := none, source_id := some "s1", place_type := none },
         { name := some "B", lat := .val 10, lon := .val 20, city := none, state := none,
           country := none, source_id := some "s2", place_type := some "mall" },
         { name := some "", lat := .val 10, lon := .val 20, city := none, state := none,
           country := none, source_id := some "s3", place_type := none }] []).summary.inserted
      + (upload_csv (some "admin_user")
        [{ name := some "A", lat := .val 10, lon := .val 20, city := none, state := none,
           country := none, source_id := some "s1", place_type := none },
         { name := some "B", lat := .val 10, lon := .val 20, city := none, state := none,
           country := none, source_id := some "s2", place_type := some "mall" },
         { name := some "", lat := .val 10, lon := .val 20, city := none, state := none,
           country := none, source_id := some "s3", place_type := none }] []).summary.skipped
      = 3 :=
  ⟨(c6_csv_best_effort (some "readonly_user") "readonly_user"
      [{ name := some "A", lat := .val 10, lon := .val 20, city := none, state := none,
         country := none, source_id := some "s1", place_type := none }] []).1
      rfl (by decide) (by decide),
   (c6_csv_best_effort (some "admin_user") "admin_user"
      [{ name := some "A", lat := .val 10, lon := .val 20, city := none, state := none,
         country := none, source_id := some "s1", place_type := none },
       { name := some "B", lat := .val 10, lon := .val 20, city := none, state := none,
         country := none, source_id := some "s2", place_type := some "mall" },
       { name := some "", lat := .val 10, lon := .val 20, city := none, state := none,
         country := none, source_id := some "s3", place_type := none }] []).2.1,
   (c6_csv_best_effort (some "admin_user") "admin_user"
      [{ name := some "A", lat := .val 10, lon := .val 20, city := none, state := none,
         country := none, source_id := some "s1", place_type := none },
       { name := some "B", lat := .val 10, lon := .val 20, city := none, state := none,
         country := none, source_id := some "s2", place_type := some "mall" },
       { name := some "", lat := .val 10, lon := .val 20, city := none, state := none,
         country := none, source_id := some "s3", place_type := none }] []).2.2.2.1⟩

/-- An out-of-range latitude makes the latitude field produce exactly its
    range error. -/
theorem latFieldErrors_out (la : ℚ) (h : la < -90 ∨ 90 < la) :
    latFieldErrors (some la)
      = [{ field := "lat", msg := "Latitude must be between -90 and 90" }] := by
  have hn : ¬(-90 ≤ la ∧ la ≤ 90) := by
    rcases h with h | h
    · rintro ⟨h1, -⟩
      linarith
    · rintro ⟨-, h2⟩
      linarith
  simp [latFieldErrors, hn]

/-- An out-of-range longitude makes the longitude field produce exactly its
    range error. -/
theorem lonFieldErrors_out (lo : ℚ) (h : lo < -180 ∨ 180 < lo) :
    lonFieldErrors (some lo)
      = [{ field := "lon", msg := "Longitude must be between -180 and 180" }] := by
  have hn : ¬(-180 ≤ lo ∧ lo ≤ 180) := by
    rcases h with h | h
    · rintro ⟨h1, -⟩
      linarith
    · rintro ⟨-, h2⟩
      linarith
  simp [lonFieldErrors, hn]

/-- A radius search with a non-empty error list answers 400 with that list. -/
theorem within_radius_invalid (a : RadiusArgs) (h : radiusSchemaErrors a ≠ []) :
    within_radius a = .invalid (radiusSchemaErrors a) := by
  cases hh : radiusSchemaErrors a with
  | nil => exact absurd hh h
  | cons e es => simp [within_radius, hh]

/-- A nearest search with a non-empty error list answers 400 with that list. -/
theorem nearest_invalid (a : NearestArgs) (h : nearestSchemaErrors a ≠ []) :
    nearest a = .invalid (nearestSchemaErrors a) := by
  cases hh : nearestSchemaErrors a with
  | nil => exact absurd hh h
  | cons e es => simp [nearest, hh]

/-- A bbox search with non-empty field errors answers 400 with those errors. -/
theorem within_bbox_invalid (a : BboxArgs) (h : bboxFieldErrors a ≠ []) :
    within_bbox a = .invalid (bboxFieldErrors a) := by
  have hs : bboxSchemaErrors a = bboxFieldErrors a := by
    cases hh : bboxFieldErrors a with
    | nil => exact absurd hh h
    | cons e es => simp [bboxSchemaErrors, hh]
  cases hh : bboxFieldErrors a with
  | nil => exact absurd hh h
  | cons e es =>
    rw [← hh, ← hs]
    cases hh2 : bboxSchemaErrors a with
    | nil => rw [hs] at hh2; exact absurd hh2 h
    | cons f fs => simp [within_bbox, hh2]

/-- A density request with a non-empty error list answers 400 with that list. -/
theorem analytics_density_invalid (a : DensityArgs) (h : densitySchemaErrors a ≠ []) :
    analytics_density a = .invalid (densitySchemaErrors a) := by
  cases hh : densitySchemaErrors a with
  | nil => exact absurd hh h
  | cons e es => simp [analytics_density, hh]

/-- An authorized add-place request with a non-empty error list answers 400
    with that list. -/
theorem add_place_invalid (role : Option String) (b : AddPlaceBody) (rr : String)
    (hrole : role = some rr) (hne : rr ≠ "") (hmem : rr ∈ addPlaceAllowedRoles)
    (h : addPlaceSchemaErrors b ≠ []) :
    add_place role b = .invalid (addPlaceSchemaErrors b) := by
  subst hrole
  cases hh : addPlaceSchemaErrors b with
  | nil => exact absurd hh h
  | cons e es => simp [add_place, optStrTruthy, hne, hmem, hh]

/-- An add-place request with a non-empty error list never reaches the
    database, whatever the caller identity. -/
theorem add_place_no_query (role : Option String) (b : AddPlaceBody)
    (h : addPlaceSchemaErrors b ≠ []) :
    (add_place role b).queriesDb = false := by
  by_cases h1 : optStrTruthy role = true
  · by_cases h2 : (role.getD "") ∈ addPlaceAllowedRoles
    · cases hh : addPlaceSchemaErrors b with
      | nil => exact absurd hh h
      | cons e es => simp [add_place, h1, h2, hh, AddPlaceResult.queriesDb]
    · simp [add_place, h1, h2, AddPlaceResult.queriesDb]
  · have h1f : optStrTruthy role = false := by
      cases hx : optStrTruthy role
      · rfl
      · exact absurd hx h1
    simp [add_place, h1f, AddPlaceResult.queriesDb]

/-- C7 (amended): for every coordinate-accepting endpoint, an out-of-range
    latitude or longitude means no database query is issued; the four GET
    endpoints (within_radius, nearest, within_bbox, analytics/density) answer
    400 with an error naming the failing bound, and /places/add does so for
    callers that pass its authentication and role gates (which run first). -/
theorem c7_coordinate_validation (a : RadiusArgs) (nn : NearestArgs) (bb : BboxArgs)
    (dd : DensityArgs) (role : Option String) (pb : AddPlaceBody) (la lo : ℚ)
    (hlat : la < -90 ∨ 90 < la) (hlon : lo < -180 ∨ 180 < lo) :
    (a.lat = some la →
       within_radius a = .invalid (radiusSchemaErrors a) ∧
       ({ field := "lat", msg := "Latitude must be between -90 and 90" } : FieldError)
         ∈ radiusSchemaErrors a ∧
       (within_radius a).queriesDb = false) ∧
    (a.lon = some lo →
       within_radius a = .invalid (radiusSchemaErrors a) ∧
       ({ field := "lon", msg := "Longitude must be between -180 and 180" } : FieldError)
         ∈ radiusSchemaErrors a ∧
       (within_radius a).queriesDb = false) ∧
    (nn.lat = some la →
       nearest nn = .invalid (nearestSchemaErrors nn) ∧
       ({ field := "lat", msg := "Latitude must be between -90 and 90" } : FieldError)
         ∈ nearestSchemaErrors nn ∧
       (nearest nn).queriesDb = false) ∧
    (nn.lon = some lo →
       nearest nn = .invalid (nearestSchemaErrors nn) ∧
       ({ field := "lon", msg := "Longitude must be between -180 and 180" } : FieldError)
         ∈ nearestSchemaErrors nn ∧
       (nearest nn).queriesDb = false) ∧
    (bb.north = some la →
       within_bbox bb = .invalid (bboxFieldErrors bb) ∧
       ({ field := "north", msg := "North must be between -90 and 90" } : FieldError)
         ∈ bboxFieldErrors bb ∧
       (within_bbox bb).queriesDb = false) ∧
    (bb.south = some la →
       within_bbox bb = .invalid (bboxFieldErrors bb) ∧
       ({ field := "south", msg := "South must be between -90 and 90" } : FieldError)
         ∈ bboxFieldErrors bb ∧
       (within_bbox bb).queriesDb = false) ∧
    (bb.east = some lo →
       within_bbox bb = .invalid (bboxFieldErrors bb) ∧
       ({ field := "east", msg := "East must be between -180 and 180" } : FieldError)
         ∈ bboxFieldErrors bb ∧
       (within_bbox bb).queriesDb = false) ∧
    (bb.west = some lo →
       within_bbox bb = .invalid (bboxFieldErrors bb) ∧
       ({ field := "west", msg := "West must be between -180 and 180" } : FieldError)
         ∈ bboxFieldErrors bb ∧
       (within_bbox bb).queriesDb = false) ∧
    (dd.lat = some la →
       analytics_density dd = .invalid (densitySchemaErrors dd) ∧
       ({ field := "lat", msg := "Latitude must be between -90 and 90" } : FieldError)
         ∈ densitySchemaErrors dd ∧
       (analytics_density dd).queriesDb = false) ∧
    (dd.lon = some lo →
       analytics_density dd = .invalid (densitySchemaErrors dd) ∧
       ({ field := "lon", msg := "Longitude must be between -180 and 180" } : FieldError)
         ∈ densitySchemaErrors dd ∧
       (analytics_density dd).queriesDb = false) ∧
    (pb.lat = some la → (add_place role pb).queriesDb = false) ∧
    (pb.lon = some lo → (add_place role pb).queriesDb = false) ∧
    (pb.lat = some la → ∀ rr : String, role = some rr → rr ≠ "" →
       rr ∈ addPlaceAllowedRoles →
       add_place role pb = .invalid (addPlaceSchemaErrors pb) ∧
       ({ field := "lat", msg := "Latitude must be between -90 and 90" } : FieldError)
         ∈ addPlaceSchemaErrors pb) ∧
    (pb.lon = some lo → ∀ rr : String, role = some rr → rr ≠ "" →
       rr ∈ addPlaceAllowedRoles →
       add_place role pb = .invalid (addPlaceSchemaErrors pb) ∧
       ({ field := "lon", msg := "Longitude must be between -180 and 180" } : FieldError)
         ∈ addPlaceSchemaErrors pb) := by
  have hnlat : ¬(-90 ≤ la ∧ la ≤ 90) := by
    rcases hlat with h | h
    · rintro ⟨h1, -⟩
      linarith
    · rintro ⟨-, h2⟩
      linarith
  have hnlon : ¬(-180 ≤ lo ∧ lo ≤ 180) := by
    rcases hlon with h | h
    · rintro ⟨h1, -⟩
      linarith
    · rintro ⟨-, h2⟩
      linarith
  refine ⟨?_, ?_, ?_, ?_, ?_, ?_, ?_, ?_, ?_, ?_, ?_, ?_, ?_, ?_⟩
  · intro hla
    have hmem : ({ field := "lat", msg := "Latitude must be between -90 and 90" } : FieldError)
        ∈ radiusSchemaErrors a := by
      rw [radiusSchemaErrors, hla, latFieldErrors_out la hlat]
      simp
    have hinv := within_radius_invalid a (List.ne_nil_of_mem hmem)
    exact ⟨hinv, hmem, by rw [hinv]; rfl⟩
  · intro hlo
    have hmem : ({ field := "lon", msg := "Longitude must be between -180 and 180" } : FieldError)
        ∈ radiusSchemaErrors a := by
      rw [radiusSchemaErrors, hlo, lonFieldErrors_out lo hlon]
      simp
    have hinv := within_radius_invalid a (List.ne_nil_of_mem hmem)
    exact ⟨hinv, hmem, by rw [hinv]; rfl⟩
  · intro hla
    have hmem : ({ field := "lat", msg := "Latitude must be between -90 and 90" } : FieldError)
        ∈ nearestSchemaErrors nn := by
      rw [nearestSchemaErrors, hla, latFieldErrors_out la hlat]
      simp
    have hinv := nearest_invalid nn (List.ne_nil_of_mem hmem)
    exact ⟨hinv, hmem, by rw [hinv]; rfl⟩
  · intro hlo
    have hmem : ({ field := "lon", msg := "Longitude must be between -180 and 180" } : FieldError)
        ∈ nearestSchemaErrors nn := by
      rw [nearestSchemaErrors, hlo, lonFieldErrors_out lo hlon]
      simp
    have hinv := nearest_invalid nn (List.ne_nil_of_mem hmem)
    exact ⟨hinv, hmem, by rw [hinv]; rfl⟩
  · intro hn1
    have hmem : ({ field := "north", msg := "North must be between -90 and 90" } : FieldError)
        ∈ bboxFieldErrors bb := by
      rw [bboxFieldErrors, hn1]
      simp [bboxLatErrors, hnlat]
    have hinv := within_bbox_invalid bb (List.ne_nil_of_mem hmem)
    exact ⟨hinv, hmem, by rw [hinv]; rfl⟩
  · intro hn1
    have hmem : ({ field := "south", msg := "South must be between -90 and 90" } : FieldError)
        ∈ bboxFieldErrors bb := by
      rw [bboxFieldErrors, hn1]
      simp [bboxLatErrors, hnlat]
    have hinv := within_bbox_invalid bb (List.ne_nil_of_mem hmem)
    exact ⟨hinv, hmem, by rw [hinv]; rfl⟩
  · intro hn1
    have hmem : ({ field := "east", msg := "East must be between -180 and 180" } : FieldError)
        ∈ bboxFieldErrors bb := by
      rw [bboxFieldErrors, hn1]
      simp [bboxLonErrors, hnlon]
    have hinv := within_bbox_invalid bb (List.ne_nil_of_mem hmem)
    exact ⟨hinv, hmem, by rw [hinv]; rfl⟩
  · intro hn1
    have hmem : ({ field := "west", msg := "West must be between -180 and 180" } : FieldError)
        ∈ bboxFieldErrors bb := by
      rw [bboxFieldErrors, hn1]
      simp [bboxLonErrors, hnlon]
    have hinv := within_bbox_invalid bb (List.ne_nil_of_mem hmem)
    exact ⟨hinv, hmem, by rw [hinv]; rfl⟩
  · intro hd1
    have hmem : ({ field := "lat", msg := "Latitude must be between -90 and 90" } : FieldError)
        ∈ densitySchemaErrors dd := by
      simp [densitySchemaErrors, hd1, hnlat]
    have hinv := analytics_density_invalid dd (List.ne_nil_of_mem hmem)
    exact ⟨hinv, hmem, by rw [hinv]; rfl⟩
  · intro hd1
    have hmem : ({ field := "lon", msg := "Longitude must be between -180 and 180" } : FieldError)
        ∈ densitySchemaErrors dd := by
      simp [densitySchemaErrors, hd1, hnlon]
    have hinv := analytics_density_invalid dd (List.ne_nil_of_mem hmem)
    exact ⟨hinv, hmem, by rw [hinv]; rfl⟩
  · intro hp1
    have hmem : ({ field := "lat", msg := "Latitude must be between -90 and 90" } : FieldError)
        ∈ addPlaceSchemaErrors pb := by
      rw [addPlaceSchemaErrors, hp1, latFieldErrors_out la hlat]
      simp
    exact add_place_no_query role pb (List.ne_nil_of_mem hmem)
  · intro hp1
    have hmem : ({ field := "lon", msg := "Longitude must be between -180 and 180" } : FieldError)
        ∈ addPlaceSchemaErrors pb := by
      rw [addPlaceSchemaErrors, hp1, lonFieldErrors_out lo hlon]
      simp
    exact add_place_no_query role pb (List.ne_nil_of_mem hmem)
  · intro hp1 rr hrole hne hmemr
    have hmem : ({ field := "lat", msg := "Latitude must be between -90 and 90" } : FieldError)
        ∈ addPlaceSchemaErrors pb := by
      rw [addPlaceSchemaErrors, hp1, latFieldErrors_out la hlat]
      simp
    exact ⟨add_place_invalid role pb rr hrole hne hmemr (List.ne_nil_of_mem hmem), hmem⟩
  · intro hp1 rr hrole hne hmemr
    have hmem : ({ field := "lon", msg := "Longitude must be between -180 and 180" } : FieldError)
        ∈ addPlaceSchemaErrors pb := by
      rw [addPlaceSchemaErrors, hp1, lonFieldErrors_out lo hlon]
      simp
    exact ⟨add_place_invalid role pb rr hrole hne hmemr (List.ne_nil_of_mem hmem), hmem⟩

/-- C7 counterexample: an unauthenticated /places/add request with latitude
    91 is answered 401 by the authentication gate, not with the 400
    validation error the claim promises for every request with an
    out-of-range latitude. -/
theorem c7_add_place_auth_precedes_validation :
    (add_place none
        { name := some "X", city := none, state := none, country := none,
          lat := some 91, lon := some 0, place_type := none }).status = 401 := by
  decide

/-- Witness for C7 at latitude 91 and longitude 181: no endpoint reaches the
    database, and an authorized add-place caller receives the validation
    response. -/
theorem c7_coordinate_validation_witness :
    (within_radius { lat := some 91, lon := some 0, km := none, state := none,
                     name := none, place_type := none }).queriesDb = false ∧
    (nearest { lat := some 0, lon := some 181, k := none, state := none,
               name := none, place_type := none }).queriesDb = false ∧
    (within_bbox { north := some 91, south := some 0, east := some 10, west := some 0,
                   state := none, name := none, place_type := none }).queriesDb = false ∧
    (analytics_density { lat := some 91, lon := some 0, radius := none }).queriesDb = false ∧
    (add_place (some "admin_user")
        { name := some "X", city := none, state := none, country := none,
          lat := some 91, lon := some 0, place_type := none })
      = .invalid (addPlaceSchemaErrors
          { name := some "X", city := none, state := none, country := none,
            lat := some 91, lon := some 0, place_type := none }) :=
  ⟨((c7_coordinate_validation
      { lat := some 91, lon := some 0, km := none, state := none,
        name := none, place_type := none }
      { lat := some 0, lon := some 181, k := none, state := none,
        name := none, place_type := none }
      { north := some 91, south := some 0, east := some 10, west := some 0,
        state := none, name := none, place_type := none }
      { lat := some 91, lon := some 0, radius := none }
      (some "admin_user")
      { name := some "X", city := none, state := none, country := none,
        lat := some 91, lon := some 0, place_type := none }
      91 181 (by decide) (by decide)).1 rfl).2.2,
   ((c7_coordinate_validation
      { lat := some 91, lon := some 0, km := none, state := none,
        name := none, place_type := none }
      { lat := some 0, lon := some 181, k := none, state := none,
        name := none, place_type := none }
      { north := some 91, south := some 0, east := some 10, west := some 0,
        state := none, name := none, place_type := none }
      { lat := some 91, lon := some 0, radius := none }
      (some "admin_user")
      { name := some "X", city := none, state := none, country := none,
        lat := some 91, lon := some 0, place_type := none }
      91 181 (by decide) (by decide)).2.2.2.1 rfl).2.2,
   ((c7_coordinate_validation
      { lat := some 91, lon := some 0, km := none, state := none,
        name := none, place_type := none }
      { lat := some 0, lon := some 181, k := none, state := none,
        name := none, place_type := none }
      { north := some 91, south := some 0, east := some 10, west := some 0,
        state := none, name := none, place_type := none }
      { lat := some 91, lon := some 0, radius := none }
      (some "admin_user")
      { name := some "X", city := none, state := none, country := none,
        lat := some 91, lon := some 0, place_type := none }
      91 181 (by decide) (by decide)).2.2.2.2.1 rfl).2.2,
   ((c7_coordinate_validation
      { lat := some 91, lon := some 0, km := none, state := none,
        name := none, place_type := none }
      { lat := some 0, lon := some 181, k := none, state := none,
        name := none, place_type := none }
      { north := some 91, south := some 0, east := some 10, west := some 0,
        state := none, name := none, place_type := none }
      { lat := some 91, lon := some 0, radius := none }
      (some "admin_user")
      { name := some "X", city := none, state := none, country := none,
        lat := some 91, lon := some 0, place_type := none }
      91 181 (by decide) (by decide)).2.2.2.2.2.2.2.2.1 rfl).2.2,
   (((c7_coordinate_validation
      { lat := some 91, lon := some 0, km := none, state := none,
        name := none, place_type := none }
      { lat := some 0, lon := some 181, k := none, state := none,
        name := none, place_type := none }
      { north := some 91, south := some 0, east := some 10, west := some 0,
        state := none, name := none, place_type := none }
      { lat := some 91, lon := some 0, radius := none }
      (some "admin_user")
      { name := some "X", city := none, state := none, country := none,
        lat := some 91, lon := some 0, place_type := none }
      91 181 (by decide) (by decide)).2.2.2.2.2.2.2.2.2.2.2.2.1 rfl)
      "admin_user" rfl (by decide) (by decide)).1⟩

/-- C8 counterexample: a comma-separated list of two valid categories is
    rejected by RadiusSearchSchema with a 400 (the OneOf validator sees one
    unknown string), and an unknown category is likewise rejected by
    NearestSearchSchema rather than accepted with an empty result set. -/
theorem c8_place_type_list_rejected :
    within_radius
        { lat := some 29, lon := some (-95), km := some 5, state := none,
          name := none, place_type := some "brewery,restaurant" }
      = .invalid [{ field := "place_type",
                    msg := "place_type must be one of: brewery, restaurant, tourist_place, hotel" }] ∧
    nearest
        { lat := some 29, lon := some (-95), k := some 5, state := none,
          name := none, place_type := some "mall" }
      = .invalid [{ field := "place_type",
                    msg := "Must be one of: brewery, restaurant, tourist_place, hotel." }] := by
  constructor
  · decide
  · decide

/-- A place_type equal to one of the four categories survives the comma
    split as the one-element list of itself. -/
theorem handlerPlaceTypes_single (t : String) (h : t ∈ validPlaceTypes) :
    handlerPlaceTypes (some t) = some [t] := by
  simp only [validPlaceTypes, List.mem_cons, List.mem_singleton,
    List.not_mem_nil, or_false] at h
  rcases h with h | h | h | h <;> subst h <;> decide

/-- C8 (amended): for the three search endpoints, a place_type naming exactly
    one of the four categories is accepted and the executed query filters on
    that single category; any other value, including a comma-separated list
    of two or more valid categories and any unknown category, is rejected
    with a 400 schema error (so the comma-splitting code never sees a
    multi-element list). -/
theorem c8_single_place_type (a : RadiusArgs) (nn : NearestArgs) (bb : BboxArgs)
    (t tn tb : String)
    (ha : a.place_type = some t) (hn : nn.place_type = some tn)
    (hb : bb.place_type = some tb) :
    ((t ∈ validPlaceTypes → ∀ q, within_radius a = .query q →
        q.place_types = some [t]) ∧
     (t ∉ validPlaceTypes →
        within_radius a = .invalid (radiusSchemaErrors a) ∧
        ({ field := "place_type",
           msg := "place_type must be one of: brewery, restaurant, tourist_place, hotel" }
          : FieldError) ∈ radiusSchemaErrors a)) ∧
    ((tn ∈ validPlaceTypes → ∀ q, nearest nn = .query q →
        q.place_types = some [tn]) ∧
     (tn ∉ validPlaceTypes →
        nearest nn = .invalid (nearestSchemaErrors nn) ∧
        ({ field := "place_type",
           msg := "Must be one of: brewery, restaurant, tourist_place, hotel." }
          : FieldError) ∈ nearestSchemaErrors nn)) ∧
    ((tb ∈ validPlaceTypes → ∀ q, within_bbox bb = .query q →
        q.place_types = some [tb]) ∧
     (tb ∉ validPlaceTypes →
        within_bbox bb = .invalid (bboxFieldErrors bb) ∧
        ({ field := "place_type",
           msg := "Must be one of: brewery, restaurant, tourist_place, hotel." }
          : FieldError) ∈ bboxFieldErrors bb)) := by
  refine ⟨⟨?_, ?_⟩, ⟨?_, ?_⟩, ⟨?_, ?_⟩⟩
  · intro hmem q hq
    cases hh : radiusSchemaErrors a with
    | cons e es =>
      rw [within_radius_invalid a (by rw [hh]; exact List.cons_ne_nil _ _)] at hq
      exact absurd hq (by simp)
    | nil =>
      simp only [within_radius, hh, RadiusResult.query.injEq] at hq
      rw [← hq]
      simp only [ha]
      exact handlerPlaceTypes_single t hmem
  · intro hmem
    have hm : (⟨"place_type",
        "place_type must be one of: brewery, restaurant, tourist_place, hotel"⟩
        : FieldError) ∈ radiusSchemaErrors a := by
      rw [radiusSchemaErrors, ha]
      simp [placeTypeErrors, hmem]
    exact ⟨within_radius_invalid a (List.ne_nil_of_mem hm), hm⟩
  · intro hmem q hq
    cases hh : nearestSchemaErrors nn with
    | cons e es =>
      rw [nearest_invalid nn (by rw [hh]; exact List.cons_ne_nil _ _)] at hq
      exact absurd hq (by simp)
    | nil =>
      simp only [nearest, hh] at hq
      split at hq
      · exact absurd hq (by simp)
      · simp only [NearestResult.query.injEq] at hq
        rw [← hq]
        simp only [hn]
        exact handlerPlaceTypes_single tn hmem
  · intro hmem
    have hm : (⟨"place_type",
        "Must be one of: brewery, restaurant, tourist_place, hotel."⟩
        : FieldError) ∈ nearestSchemaErrors nn := by
      rw [nearestSchemaErrors, hn]
      simp [placeTypeErrors, hmem]
    exact ⟨nearest_invalid nn (List.ne_nil_of_mem hm), hm⟩
  · intro hmem q hq
    cases hh : bboxSchemaErrors bb with
    | cons e es =>
      have : within_bbox bb = .invalid (e :: es) := by simp [within_bbox, hh]
      rw [this] at hq
      exact absurd hq (by simp)
    | nil =>
      simp only [within_bbox, hh, BboxResult.query.injEq] at hq
      rw [← hq]
      simp only [hb]
      exact handlerPlaceTypes_single tb hmem
  · intro hmem
    have hm : (⟨"place_type",
        "Must be one of: brewery, restaurant, tourist_place, hotel."⟩
        : FieldError) ∈ bboxFieldErrors bb := by
      rw [bboxFieldErrors, hb]
      simp [placeTypeErrors, hmem]
    exact ⟨within_bbox_invalid bb (List.ne_nil_of_mem hm), hm⟩

/-- Witness for C8: a single valid category (hotel) yields a query filtering
    on exactly that category; an unknown category yields the 400 response. -/
theorem c8_single_place_type_witness :
    ({ lat := 29, lon := -95, radius_km := 10, place_types := some ["hotel"],
       state_filter := none, name_filter := none, order_by_distance := true,
       limit := 2000 } : RadiusQuery).place_types = some ["hotel"] ∧
    within_radius
        { lat := some 29, lon := some (-95), km := none, state := none,
          name := none, place_type := some "mall" }
      = .invalid (radiusSchemaErrors
          { lat := some 29, lon := some (-95), km := none, state := none,
            name := none, place_type := some "mall" }) :=
  ⟨(c8_single_place_type
      { lat := some 29, lon := some (-95), km := none, state := none,
        name := none, place_type := some "hotel" }
      { lat := some 29, lon := some (-95), k := none, state := none,
        name := none, place_type := some "hotel" }
      { north := some 10, south := some 0, east := some 10, west := some 0,
        state := none, name := none, place_type := some "hotel" }
      "hotel" "hotel" "hotel" rfl rfl rfl).1.1 (by decide)
      { lat := 29, lon := -95, radius_km := 10, place_types := some ["hotel"],
        state_filter := none, name_filter := none, order_by_distance := true,
        limit := 2000 } (by decide),
   ((c8_single_place_type
      { lat := some 29, lon := some (-95), km := none, state := none,
        name := none, place_type := some "mall" }
      { lat := some 29, lon := some (-95), k := none, state := none,
        name := none, place_type := some "hotel" }
      { north := some 10, south := some 0, east := some 10, west := some 0,
        state := none, name := none, place_type := some "hotel" }
      "mall" "hotel" "hotel" rfl rfl rfl).1.2 (by decide)).1⟩

/-- The fabricated rating lies between 3.5 and 4.8 inclusive. -/
theorem mock_rating_bounds (pid : Nat) :
    (7 / 2 : ℚ) ≤ mock_rating pid ∧ mock_rating pid ≤ 24 / 5 := by
  set m : ℕ := mockHashOfId pid % 130 with hm
  have hmlt : m < 130 := Nat.mod_lt _ (by norm_num)
  have hm0 : (0 : ℚ) ≤ (m : ℚ) := Nat.cast_nonneg m
  have hm129 : (m : ℚ) ≤ 129 := by
    have : m ≤ 129 := Nat.lt_succ_iff.mp hmlt
    exact_mod_cast this
  have harg : 10 * (((350 + m : ℕ) : ℚ) / 100) + 1 / 2 = ((350 : ℚ) + m) / 10 + 1 / 2 := by
    push_cast
    ring
  have hlow : (35 : ℤ) ≤ ⌊10 * (((350 + m : ℕ) : ℚ) / 100) + 1 / 2⌋ := by
    rw [harg]
    apply Int.le_floor.mpr
    push_cast
    linarith
  have hhigh : ⌊10 * (((350 + m : ℕ) : ℚ) / 100) + 1 / 2⌋ < 49 := by
    rw [harg]
    apply Int.floor_lt.mpr
    push_cast
    linarith
  have hhigh48 : ⌊10 * (((350 + m : ℕ) : ℚ) / 100) + 1 / 2⌋ ≤ 48 := by
    omega
  have hcastlow : (35 : ℚ) ≤ (⌊10 * (((350 + m : ℕ) : ℚ) / 100) + 1 / 2⌋ : ℚ) := by
    exact_mod_cast hlow
  have hcasthigh : (⌊10 * (((350 + m : ℕ) : ℚ) / 100) + 1 / 2⌋ : ℚ) ≤ 48 := by
    exact_mod_cast hhigh48
  rw [mock_rating, roundTenths, ← hm]
  constructor
  · linarith
  · linarith

/-- The fabricated review count lies between 50 and 1999 inclusive. -/
theorem mock_review_count_bounds (pid : Nat) :
    50 ≤ mock_review_count pid ∧ mock_review_count pid ≤ 1999 := by
  have : mockHashOfId pid % 1950 < 1950 := Nat.mod_lt _ (by norm_num)
  rw [mock_review_count]
  omega

/-- C10: for a restaurant, tourist place or hotel with no positive stored
    rating, within_radius fabricates the rating and review count as fixed
    functions of the place id (via MD5), with the rating in [3.5, 4.8] and
    the review count in [50, 1999], so every response decorates the same
    place identically; a positive stored rating is kept and only the review
    count is fabricated; any other case is left undecorated. -/
theorem c10_mock_rating_decoration (pid : Nat) (stored : Option ℚ) (pt : String) :
    (ratingValue stored = none → pt ∈ mockRatingTypes →
       ratingDecoration stored pt pid
         = (some (mock_rating pid), some (mock_review_count pid)) ∧
       (7 / 2 : ℚ) ≤ mock_rating pid ∧ mock_rating pid ≤ 24 / 5 ∧
       50 ≤ mock_review_count pid ∧ mock_review_count pid ≤ 1999) ∧
    (∀ r : ℚ, ratingValue stored = some r →
       ratingDecoration stored pt pid = (some r, some (mock_review_count pid))) ∧
    (ratingValue stored = none → pt ∉ mockRatingTypes →
       ratingDecoration stored pt pid = (none, none)) := by
  refine ⟨?_, ?_, ?_⟩
  · intro hrv hpt
    refine ⟨by simp [ratingDecoration, hrv, hpt], ?_, ?_, ?_, ?_⟩
    · exact (mock_rating_bounds pid).1
    · exact (mock_rating_bounds pid).2
    · exact (mock_review_count_bounds pid).1
    · exact (mock_review_count_bounds pid).2
  · intro r hrv
    simp [ratingDecoration, hrv]
  · intro hrv hpt
    simp [ratingDecoration, hrv, hpt]

set_option maxRecDepth 10000 in
/-- Witness for C10 at place id 1 without a stored rating: the decoration is
    the fabricated pair, and its review count evaluates through the MD5
    embedding to the concrete value 1710 (matching the reference digest of
    the string 1); a stored rating 4 is kept as-is. -/
theorem c10_mock_rating_decoration_witness :
    ratingDecoration none "restaurant" 1
      = (some (mock_rating 1), some (mock_review_count 1)) ∧
    mock_review_count 1 = 1710 ∧
    ratingDecoration (some 4) "restaurant" 1 = (some 4, some (mock_review_count 1)) :=
  ⟨((c10_mock_rating_decoration 1 none "restaurant").1 rfl (by decide)).1,
   by decide,
   (c10_mock_rating_decoration 1 (some 4) "restaurant").2.1 4 (by decide)⟩

end Geoplan
